import Mathlib

/-!
# Leads calculator (Costa Rica): funnel arithmetic, performance rating, tips and formatting

A shallow embedding of `src/utils/calculations.js`.

Numbers: a JavaScript number is modelled by `JSNum`: a finite value carried as an exact
rational, or one of the three non-finite values `NaN`, `+Infinity`, `-Infinity`.
Arithmetic on finite values is exact (binary rounding error, overflow to infinity and the
sign of zero are not modelled); division by zero and arithmetic on non-finite values follow
the language's rules.  A value that may be missing is a `JSVal`.

Text: `toFixed` is modelled on the exact value; the locale-dependent `toLocaleString` and the
exponential notation of very large numbers are supplied by a `Host` record.
-/

namespace LeadsCalculator

/-! ## Numbers and values -/

/-- A JavaScript number: finite (exact rational), `NaN`, `+Infinity` or `-Infinity`. -/
inductive JSNum where
  | fin (q : ℚ)
  | nan
  | posInf
  | negInf
  deriving DecidableEq

/-- A JavaScript value as the calculator can receive it: `undefined`, `null` or a number. -/
inductive JSVal where
  | undefined
  | null
  | num (x : JSNum)
  deriving DecidableEq

namespace JSNum

/-- Truthiness of a number: `0` and `NaN` are falsy, everything else is truthy. -/
def truthy : JSNum → Bool
  | fin q => decide (q ≠ 0)
  | nan => false
  | posInf => true
  | negInf => true

/-- The operator `a / b`. -/
def div : JSNum → JSNum → JSNum
  | nan, _ => nan
  | _, nan => nan
  | fin a, fin b =>
    if b = 0 then (if a = 0 then nan else if 0 < a then posInf else negInf)
    else fin (a / b)
  | fin _, posInf => fin 0
  | fin _, negInf => fin 0
  | posInf, fin b => if 0 ≤ b then posInf else negInf
  | negInf, fin b => if 0 ≤ b then negInf else posInf
  | posInf, posInf => nan
  | posInf, negInf => nan
  | negInf, posInf => nan
  | negInf, negInf => nan

/-- The operator `a * b`. -/
def mul : JSNum → JSNum → JSNum
  | nan, _ => nan
  | _, nan => nan
  | fin a, fin b => fin (a * b)
  | fin a, posInf => if a = 0 then nan else if 0 < a then posInf else negInf
  | fin a, negInf => if a = 0 then nan else if 0 < a then negInf else posInf
  | posInf, fin b => if b = 0 then nan else if 0 < b then posInf else negInf
  | negInf, fin b => if b = 0 then nan else if 0 < b then negInf else posInf
  | posInf, posInf => posInf
  | posInf, negInf => negInf
  | negInf, posInf => negInf
  | negInf, negInf => posInf

/-- The operator `a - b`. -/
def sub : JSNum → JSNum → JSNum
  | nan, _ => nan
  | _, nan => nan
  | fin a, fin b => fin (a - b)
  | fin _, posInf => negInf
  | fin _, negInf => posInf
  | posInf, fin _ => posInf
  | negInf, fin _ => negInf
  | posInf, posInf => nan
  | posInf, negInf => posInf
  | negInf, posInf => negInf
  | negInf, negInf => nan

/-- The function `Math.round`: the nearest integer, a tie going to the larger one;
non-finite values are returned unchanged. -/
def round : JSNum → JSNum
  | fin q => fin (⌊q + 1 / 2⌋ : ℤ)
  | x => x

/-- The comparison `a > b` (false whenever an operand is `NaN`). -/
def gt : JSNum → JSNum → Bool
  | nan, _ => false
  | _, nan => false
  | fin a, fin b => decide (a > b)
  | fin _, posInf => false
  | fin _, negInf => true
  | posInf, posInf => false
  | posInf, _ => true
  | negInf, _ => false

/-- The comparison `a < b`. -/
def lt (a b : JSNum) : Bool := gt b a

/-- The comparison `a >= b` (false whenever an operand is `NaN`). -/
def ge : JSNum → JSNum → Bool
  | nan, _ => false
  | _, nan => false
  | fin a, fin b => decide (a ≥ b)
  | fin _, posInf => false
  | fin _, negInf => true
  | posInf, _ => true
  | negInf, negInf => true
  | negInf, _ => false

/-- The comparison `a <= b`. -/
def le (a b : JSNum) : Bool := ge b a

/-- A number is finite when it is neither `NaN` nor an infinity. -/
def isFinite : JSNum → Bool
  | fin _ => true
  | _ => false

end JSNum

namespace JSVal

/-- Truthiness of a value: `undefined`, `null`, `0` and `NaN` are falsy. -/
def truthy : JSVal → Bool
  | undefined => false
  | null => false
  | num x => x.truthy

/-- The conversion a value undergoes when used in arithmetic or a comparison:
`undefined` becomes `NaN`, `null` becomes `0`. -/
def toNumber : JSVal → JSNum
  | undefined => JSNum.nan
  | null => JSNum.fin 0
  | num x => x

/-- The value is missing: `null` or `undefined`. -/
def isAbsent : JSVal → Prop
  | undefined => True
  | null => True
  | num _ => False

/-- The value is the number `NaN`. -/
def isNaN : JSVal → Prop
  | num JSNum.nan => True
  | _ => False

/-- The value is the number `0`. -/
def isZero : JSVal → Prop
  | num (JSNum.fin q) => q = 0
  | _ => False

/-- The value is a strictly positive number. -/
def isPositive : JSVal → Prop
  | num (JSNum.fin q) => 0 < q
  | num JSNum.posInf => True
  | _ => False

/-- The value is a strictly negative number. -/
def isNegative : JSVal → Prop
  | num (JSNum.fin q) => q < 0
  | num JSNum.negInf => True
  | _ => False

end JSVal

/-! ## The market dataset -/

/-- The constant `CR_MARKET_DEFAULTS.avgLeadValue`. -/
def avgLeadValue : JSNum := JSNum.fin 45000

/-- The constant `CR_MARKET_DEFAULTS.avgCostPerClick`. -/
def avgCostPerClick : JSNum := JSNum.fin 750

/-- The constant `CR_MARKET_DEFAULTS.avgClickRate` (2.3). -/
def avgClickRate : JSNum := JSNum.fin (23 / 10)

/-- The constant `CR_MARKET_DEFAULTS.avgConversionRate` (4.2). -/
def avgConversionRate : JSNum := JSNum.fin (42 / 10)

/-- One threshold table of `CR_MARKET_DEFAULTS.benchmarks` for a rate. -/
structure RateBenchmark where
  excellent : JSNum
  good : JSNum
  average : JSNum
  poor : JSNum

/-- The threshold table `CR_MARKET_DEFAULTS.benchmarks.costPerLead`. -/
structure CostBenchmark where
  excellent : JSNum
  good : JSNum
  acceptable : JSNum
  expensive : JSNum

/-- The table `benchmarks.clickRate`. -/
def benchmarksClickRate : RateBenchmark :=
  { excellent := JSNum.fin 4, good := JSNum.fin (5 / 2), average := JSNum.fin (9 / 5),
    poor := JSNum.fin 1 }

/-- The table `benchmarks.conversionRate`. -/
def benchmarksConversionRate : RateBenchmark :=
  { excellent := JSNum.fin 8, good := JSNum.fin 5, average := JSNum.fin 3,
    poor := JSNum.fin (3 / 2) }

/-- The table `benchmarks.costPerLead`. -/
def benchmarksCostPerLead : CostBenchmark :=
  { excellent := JSNum.fin 8000, good := JSNum.fin 12000, acceptable := JSNum.fin 18000,
    expensive := JSNum.fin 25000 }

/-! ## Performance rating -/

/-- The rating labels (the string literals used by `evaluatePerformance`). -/
inductive Label where
  | excellent
  | good
  | average
  | poor
  | acceptable
  | expensive
  deriving DecidableEq, Repr

/-- The argument record of `evaluatePerformance`. -/
structure Metrics where
  clickRate : JSNum
  conversionRate : JSNum
  costPerLead : JSNum
  roi : JSNum

/-- The record returned by `evaluatePerformance`. -/
structure Performance where
  clickRate : Label
  conversion : Label
  cost : Label
  roi : Label
  overall : Label
  deriving DecidableEq

/-- The score a label gets in `calculateOverallScore` (the `switch` with its default). -/
def labelScore : Label → ℚ
  | Label.excellent => 4
  | Label.good => 3
  | Label.average => 2
  | _ => 1

/-- The function `calculateOverallScore`, on any number of ratings. -/
def calculateOverallScore (performances : List Label) : Label :=
  let scores := performances.map labelScore
  let avgScore :=
    JSNum.div (JSNum.fin (scores.foldl (fun sum score => sum + score) 0))
      (JSNum.fin performances.length)
  if JSNum.ge avgScore (JSNum.fin (7 / 2)) then Label.excellent
  else if JSNum.ge avgScore (JSNum.fin (5 / 2)) then Label.good
  else if JSNum.ge avgScore (JSNum.fin (3 / 2)) then Label.average
  else Label.poor

/-- The function `evaluatePerformance`. -/
def evaluatePerformance (metrics : Metrics) : Performance :=
  let clickRatePerformance :=
    if JSNum.ge metrics.clickRate benchmarksClickRate.excellent then Label.excellent
    else if JSNum.ge metrics.clickRate benchmarksClickRate.good then Label.good
    else if JSNum.ge metrics.clickRate benchmarksClickRate.average then Label.average
    else Label.poor
  let conversionPerformance :=
    if JSNum.ge metrics.conversionRate benchmarksConversionRate.excellent then Label.excellent
    else if JSNum.ge metrics.conversionRate benchmarksConversionRate.good then Label.good
    else if JSNum.ge metrics.conversionRate benchmarksConversionRate.average then Label.average
    else Label.poor
  let costEfficiency :=
    if JSNum.le metrics.costPerLead benchmarksCostPerLead.excellent then Label.excellent
    else if JSNum.le metrics.costPerLead benchmarksCostPerLead.good then Label.good
    else if JSNum.le metrics.costPerLead benchmarksCostPerLead.acceptable then Label.acceptable
    else Label.expensive
  let roiPerformance :=
    if JSNum.ge metrics.roi (JSNum.fin 200) then Label.excellent
    else if JSNum.ge metrics.roi (JSNum.fin 100) then Label.good
    else if JSNum.ge metrics.roi (JSNum.fin 50) then Label.average
    else Label.poor
  { clickRate := clickRatePerformance
    conversion := conversionPerformance
    cost := costEfficiency
    roi := roiPerformance
    overall :=
      calculateOverallScore
        [clickRatePerformance, conversionPerformance, costEfficiency, roiPerformance] }

/-! ## The funnel calculator -/

/-- The argument record of `calculateLeadsFunnel`. -/
structure Inputs where
  investment : JSVal
  costPerClick : JSVal
  clickRate : JSVal
  conversionRate : JSVal

/-- The record returned by `calculateLeadsFunnel`. -/
structure FunnelResult where
  impressions : JSNum
  clicks : JSNum
  leads : JSNum
  costPerLead : JSNum
  costPerClick : JSNum
  totalInvestment : JSNum
  leadValue : JSNum
  totalLeadValue : JSNum
  roi : JSNum
  clickRate : JSNum
  conversionRate : JSNum
  impressionToClick : JSNum
  clickToLead : JSNum
  impressionToLead : JSNum
  performance : Performance

/-- The function `calculateLeadsFunnel`; `none` is the `null` it returns when a field is falsy.
Past the validation every field is a number, so each is read through `toNumber`. -/
def calculateLeadsFunnel (inputs : Inputs) : Option FunnelResult :=
  if !inputs.investment.truthy || !inputs.costPerClick.truthy || !inputs.clickRate.truthy
      || !inputs.conversionRate.truthy then
    none
  else
    let investment := inputs.investment.toNumber
    let costPerClick := inputs.costPerClick.toNumber
    let clickRate := inputs.clickRate.toNumber
    let conversionRate := inputs.conversionRate.toNumber
    let impressions :=
      JSNum.round
        (JSNum.div investment (JSNum.mul costPerClick (JSNum.div clickRate (JSNum.fin 100))))
    let clicks := JSNum.round (JSNum.mul impressions (JSNum.div clickRate (JSNum.fin 100)))
    let leads := JSNum.round (JSNum.mul clicks (JSNum.div conversionRate (JSNum.fin 100)))
    let costPerLead :=
      if JSNum.gt leads (JSNum.fin 0) then JSNum.round (JSNum.div investment leads)
      else JSNum.fin 0
    let leadValue := avgLeadValue
    let totalLeadValue := JSNum.mul leads leadValue
    let roi :=
      if JSNum.gt leads (JSNum.fin 0) then
        JSNum.round (JSNum.mul (JSNum.div (JSNum.sub totalLeadValue investment) investment)
          (JSNum.fin 100))
      else JSNum.fin 0
    let impressionToClick := clickRate
    let clickToLead := conversionRate
    let impressionToLead := JSNum.mul (JSNum.div leads impressions) (JSNum.fin 100)
    some
      { impressions := impressions
        clicks := clicks
        leads := leads
        costPerLead := costPerLead
        costPerClick := costPerClick
        totalInvestment := investment
        leadValue := leadValue
        totalLeadValue := totalLeadValue
        roi := roi
        clickRate := clickRate
        conversionRate := conversionRate
        impressionToClick := impressionToClick
        clickToLead := clickToLead
        impressionToLead := impressionToLead
        performance :=
          evaluatePerformance
            { clickRate := clickRate
              conversionRate := conversionRate
              costPerLead := costPerLead
              roi := roi } }

/-- The input record with four finite numeric fields. -/
def Inputs.ofRat (investment costPerClick clickRate conversionRate : ℚ) : Inputs :=
  { investment := JSVal.num (JSNum.fin investment)
    costPerClick := JSVal.num (JSNum.fin costPerClick)
    clickRate := JSVal.num (JSNum.fin clickRate)
    conversionRate := JSVal.num (JSNum.fin conversionRate) }

/-- The initial input state of the `useLeadsCalculator` hook. -/
def defaultInputs : Inputs :=
  { investment := JSVal.num (JSNum.fin 150000)
    costPerClick := JSVal.num avgCostPerClick
    clickRate := JSVal.num avgClickRate
    conversionRate := JSVal.num avgConversionRate }

/-- The validation of `calculateLeadsFunnel` passes: every field is truthy. -/
def Inputs.allTruthy (inputs : Inputs) : Prop :=
  inputs.investment.truthy = true ∧ inputs.costPerClick.truthy = true ∧
    inputs.clickRate.truthy = true ∧ inputs.conversionRate.truthy = true

/-- The value is missing, `NaN` or `0`: the values the validation rejects. -/
def JSVal.isMissingOrZero (v : JSVal) : Prop :=
  v.isAbsent ∨ v.isNaN ∨ v.isZero

/-- Some field of the input is missing, `NaN` or `0`. -/
def Inputs.someMissingOrZero (inputs : Inputs) : Prop :=
  inputs.investment.isMissingOrZero ∨ inputs.costPerClick.isMissingOrZero ∨
    inputs.clickRate.isMissingOrZero ∨ inputs.conversionRate.isMissingOrZero

/-- Some field of the input is a negative number. -/
def Inputs.someNegative (inputs : Inputs) : Prop :=
  inputs.investment.isNegative ∨ inputs.costPerClick.isNegative ∨
    inputs.clickRate.isNegative ∨ inputs.conversionRate.isNegative

/-- Every field of the input is a strictly positive number. -/
def Inputs.allPositive (inputs : Inputs) : Prop :=
  inputs.investment.isPositive ∧ inputs.costPerClick.isPositive ∧
    inputs.clickRate.isPositive ∧ inputs.conversionRate.isPositive

/-- Every field of the input is missing, `NaN` or a non-negative number. -/
def Inputs.noneNegative (inputs : Inputs) : Prop :=
  ¬ inputs.investment.isNegative ∧ ¬ inputs.costPerClick.isNegative ∧
    ¬ inputs.clickRate.isNegative ∧ ¬ inputs.conversionRate.isNegative

/-! ## Runtime text functions -/

/-- The text-rendering built-ins of the runtime that the code calls and this development does
not model: `Number.prototype.toLocaleString` (locale dependent) and the conversion of a number
to a string in exponential notation. -/
structure Host where
  toLocaleString : JSNum → String
  numberToString : JSNum → String

/-- The decimal digits of `n`, padded on the left with zeros to at least `width` digits. -/
def padDigits (n width : ℕ) : String :=
  String.mk (List.replicate (width - (toString n).length) '0') ++ toString n

/-- The method `Number.prototype.toFixed` with `digits` fraction digits: a non-finite value is
rendered by name; otherwise the sign is split off, a magnitude from `10^21` is rendered by the
runtime in exponential notation, and a smaller one is rendered in fixed notation from the
integer nearest to `magnitude * 10^digits` (the larger one on a tie). -/
def JSNum.toFixed (host : Host) (x : JSNum) (digits : ℕ) : String :=
  match x with
  | JSNum.nan => "NaN"
  | JSNum.posInf => "Infinity"
  | JSNum.negInf => "-Infinity"
  | JSNum.fin q =>
    let s := if q < 0 then "-" else ""
    let m :=
      if |q| ≥ 10 ^ 21 then host.numberToString (JSNum.fin |q|)
      else
        let n := (⌊|q| * 10 ^ digits + 1 / 2⌋ : ℤ).toNat
        if digits = 0 then toString n
        else toString (n / 10 ^ digits) ++ "." ++ padDigits (n % 10 ^ digits) digits
    s ++ m

/-- The function `formatCurrency`. -/
def formatCurrency (host : Host) (amount : JSNum) : String :=
  if JSNum.ge amount (JSNum.fin 1000000) then
    "₡" ++ JSNum.toFixed host (JSNum.div amount (JSNum.fin 1000000)) 1 ++ "M"
  else if JSNum.ge amount (JSNum.fin 1000) then
    "₡" ++ JSNum.toFixed host (JSNum.div amount (JSNum.fin 1000)) 0 ++ "K"
  else
    "₡" ++ host.toLocaleString amount

/-- The function `formatPercentage`. -/
def formatPercentage (host : Host) (percentage : JSVal) : String :=
  match percentage with
  | JSVal.null => "0.0%"
  | JSVal.undefined => "0.0%"
  | JSVal.num JSNum.nan => "0.0%"
  | JSVal.num x => JSNum.toFixed host x 1 ++ "%"

/-! ## Tips -/

/-- The presentation hint of a tip (the `type` strings). -/
inductive TipType where
  | success
  | warning
  | info
  | suggestion
  deriving DecidableEq, Repr

/-- The category of a tip (the `category` strings). -/
inductive Category where
  | conversion
  | cost
  | budget
  | traffic
  | roi
  | optimization
  | market
  deriving DecidableEq, Repr

/-- The priority of a tip (the `priority` strings). -/
inductive Priority where
  | high
  | medium
  | low
  deriving DecidableEq, Repr

/-- A tip record. -/
structure Tip where
  type : TipType
  category : Category
  title : String
  message : String
  action : String
  priority : Priority
  impact : String
  deriving DecidableEq

/-- The table `priorityOrder` of the sort comparator. -/
def priorityOrder : Priority → ℤ
  | Priority.high => 3
  | Priority.medium => 2
  | Priority.low => 1

/-- The sort comparator `(a, b) => priorityOrder[b.priority] - priorityOrder[a.priority]`. -/
def comparePriority (a b : Tip) : ℤ :=
  priorityOrder b.priority - priorityOrder a.priority

/-- The comparator does not place `a` after `b`: its value is not positive. -/
def notAfter (a b : Tip) : Prop :=
  comparePriority a b ≤ 0

instance : DecidableRel notAfter :=
  fun a b => inferInstanceAs (Decidable (comparePriority a b ≤ 0))

/-- The method `Array.prototype.sort` with the priority comparator.  The built-in sort is
stable; it is modelled by insertion sort, which keeps elements that compare equal in their
original order. -/
def sortByPriority (tips : List Tip) : List Tip :=
  List.insertionSort notAfter tips

/-- The tip pushed for a low conversion rate. -/
def conversionTip : Tip :=
  { type := TipType.warning
    category := Category.conversion
    title := "Conversión Baja"
    message := "Tu tasa de conversión está por debajo del promedio costarricense (4.2%)"
    action := "Optimiza tu landing page con testimonios locales y formularios cortos"
    priority := Priority.high
    impact := "Alto - Puede duplicar tus leads" }

/-- The tip pushed for a high cost per lead; its message shows the cost per lead as the
runtime renders it. -/
def costTip (host : Host) (costPerLead : JSNum) : Tip :=
  { type := TipType.info
    category := Category.cost
    title := "Costo por Lead Alto"
    message :=
      "₡" ++ host.toLocaleString costPerLead ++ " por lead está sobre el promedio CR (₡12,000)"
    action := "Segmenta por provincia o ajusta palabras clave negativas"
    priority := Priority.medium
    impact := "Medio - Reduce costos 20-30%" }

/-- The tip pushed for a low budget. -/
def budgetTip : Tip :=
  { type := TipType.suggestion
    category := Category.budget
    title := "Presupuesto Limitado"
    message := "Con presupuestos menores a ₡100,000 es difícil competir en mercados amplios"
    action := "Enfócate en nichos específicos o audiencias locales muy segmentadas"
    priority := Priority.medium
    impact := "Medio - Mejor eficiencia del presupuesto" }

/-- The tip pushed for a low click rate. -/
def trafficTip : Tip :=
  { type := TipType.warning
    category := Category.traffic
    title := "CTR Bajo"
    message := "Tus anuncios no están generando suficiente interés"
    action := "Prueba anuncios con referencias culturales ticas o promociones limitadas"
    priority := Priority.high
    impact := "Alto - Más tráfico con mismo presupuesto" }

/-- The tip pushed for a low roi. -/
def roiTip : Tip :=
  { type := TipType.warning
    category := Category.roi
    title := "ROI Bajo"
    message := "Tu retorno de inversión está por debajo del 100%"
    action := "Revisa tu propuesta de valor y precios para el mercado costarricense"
    priority := Priority.high
    impact := "Crítico - Rentabilidad del negocio" }

/-- The tip pushed for an excellent overall rating. -/
def optimizationTip : Tip :=
  { type := TipType.success
    category := Category.optimization
    title := "¡Excelente Rendimiento!"
    message := "Tus métricas están por encima del promedio costarricense"
    action := "Considera aumentar presupuesto para escalar estos resultados"
    priority := Priority.low
    impact := "Alto - Oportunidad de crecimiento" }

/-- The tip pushed whenever there are leads. -/
def marketTip : Tip :=
  { type := TipType.info
    category := Category.market
    title := "Tip Mercado CR"
    message := "En Costa Rica, WhatsApp Business tiene 40% más conversión que email"
    action := "Integra WhatsApp en tu estrategia de seguimiento de leads"
    priority := Priority.low
    impact := "Medio - Mejor conversión de leads" }

/-- The function `generateMarketingTips`; an absent argument is `none`.  Each rule pushes its
tip (the records above) onto the list, which is sorted at the end. -/
def generateMarketingTips (host : Host) (results : Option FunnelResult)
    (inputs : Option Inputs) : List Tip :=
  match results, inputs with
  | none, _ => []
  | _, none => []
  | some results, some inputs =>
    let tips : List Tip := []
    let tips :=
      if JSNum.lt inputs.conversionRate.toNumber (JSNum.fin 3) then tips ++ [conversionTip]
      else tips
    let tips :=
      if JSNum.gt results.costPerLead (JSNum.fin 15000) then
        tips ++ [costTip host results.costPerLead]
      else tips
    let tips :=
      if JSNum.lt inputs.investment.toNumber (JSNum.fin 100000) then tips ++ [budgetTip]
      else tips
    let tips :=
      if JSNum.lt inputs.clickRate.toNumber (JSNum.fin 2) then tips ++ [trafficTip]
      else tips
    let tips :=
      if JSNum.lt results.roi (JSNum.fin 100) then tips ++ [roiTip]
      else tips
    let tips :=
      if results.performance.overall = Label.excellent then tips ++ [optimizationTip]
      else tips
    let tips :=
      if JSNum.gt results.leads (JSNum.fin 0) then tips ++ [marketTip]
      else tips
    sortByPriority tips

/-! ## A variant for comparison -/

/-- The funnel variant that carries unrounded intermediate values between stages, not present
in the code: clicks are computed from the unrounded impressions, leads from the unrounded
clicks, and each count is rounded only when reported.  It returns the reported impressions,
clicks and leads. -/
def unroundedFunnelCounts (inputs : Inputs) : JSNum × JSNum × JSNum :=
  let investment := inputs.investment.toNumber
  let costPerClick := inputs.costPerClick.toNumber
  let clickRate := inputs.clickRate.toNumber
  let conversionRate := inputs.conversionRate.toNumber
  let impressions :=
    JSNum.div investment (JSNum.mul costPerClick (JSNum.div clickRate (JSNum.fin 100)))
  let clicks := JSNum.mul impressions (JSNum.div clickRate (JSNum.fin 100))
  let leads := JSNum.mul clicks (JSNum.div conversionRate (JSNum.fin 100))
  (JSNum.round impressions, JSNum.round clicks, JSNum.round leads)

/-- The integer `n` is the nearest integer to `x`, a tie going to the larger neighbour:
`n - 1/2 ≤ x < n + 1/2`. -/
def NearestTiesUp (x : ℚ) (n : ℤ) : Prop :=
  (n : ℚ) - 1 / 2 ≤ x ∧ x < (n : ℚ) + 1 / 2


/-! ## Lemmas on the number model -/

theorem JSNum.div_fin (a b : ℚ) (hb : b ≠ 0) : JSNum.div (.fin a) (.fin b) = .fin (a / b) := by
  simp [JSNum.div, hb]

theorem JSNum.mul_fin (a b : ℚ) : JSNum.mul (.fin a) (.fin b) = .fin (a * b) := rfl

theorem JSNum.sub_fin (a b : ℚ) : JSNum.sub (.fin a) (.fin b) = .fin (a - b) := rfl

theorem JSNum.round_fin (a : ℚ) : JSNum.round (.fin a) = .fin (⌊a + 1 / 2⌋ : ℤ) := rfl

theorem JSNum.gt_fin (a b : ℚ) : JSNum.gt (.fin a) (.fin b) = decide (b < a) := rfl

theorem JSNum.ge_fin (a b : ℚ) : JSNum.ge (.fin a) (.fin b) = decide (b ≤ a) := rfl

theorem JSNum.le_fin (a b : ℚ) : JSNum.le (.fin a) (.fin b) = decide (a ≤ b) := rfl

theorem JSNum.lt_fin (a b : ℚ) : JSNum.lt (.fin a) (.fin b) = decide (a < b) := rfl

theorem nearestTiesUp_iff (x : ℚ) (n : ℤ) : NearestTiesUp x n ↔ ⌊x + 1 / 2⌋ = n := by
  unfold NearestTiesUp
  rw [Int.floor_eq_iff]
  constructor
  · rintro ⟨h1, h2⟩
    exact ⟨by linarith, by linarith⟩
  · rintro ⟨h1, h2⟩
    exact ⟨by linarith, by linarith⟩

theorem nearestTiesUp_floor (x : ℚ) : NearestTiesUp x ⌊x + 1 / 2⌋ :=
  (nearestTiesUp_iff x _).2 rfl

/-! ## Unfolding the calculator -/

theorem calculateLeadsFunnel_eq_none_iff (inputs : Inputs) :
    calculateLeadsFunnel inputs = none ↔ ¬ inputs.allTruthy := by
  unfold calculateLeadsFunnel Inputs.allTruthy
  split
  · rename_i h
    simp only [Bool.or_eq_true, Bool.not_eq_true'] at h
    simp only [true_iff]
    rintro ⟨h1, h2, h3, h4⟩
    simp [h1, h2, h3, h4] at h
  · rename_i h
    simp only [Bool.or_eq_true, Bool.not_eq_true', not_or, Bool.not_eq_false] at h
    simp [h]

/-- Every field of the record returned when the validation passes, in terms of the
operators of the number model. -/
theorem funnel_fields (inputs : Inputs) (h : inputs.allTruthy) :
    ∃ res, calculateLeadsFunnel inputs = some res ∧
      res.impressions =
        JSNum.round (JSNum.div inputs.investment.toNumber
          (JSNum.mul inputs.costPerClick.toNumber
            (JSNum.div inputs.clickRate.toNumber (JSNum.fin 100)))) ∧
      res.clicks =
        JSNum.round (JSNum.mul res.impressions
          (JSNum.div inputs.clickRate.toNumber (JSNum.fin 100))) ∧
      res.leads =
        JSNum.round (JSNum.mul res.clicks
          (JSNum.div inputs.conversionRate.toNumber (JSNum.fin 100))) ∧
      res.costPerLead =
        (if JSNum.gt res.leads (JSNum.fin 0) then
          JSNum.round (JSNum.div inputs.investment.toNumber res.leads)
        else JSNum.fin 0) ∧
      res.leadValue = avgLeadValue ∧
      res.totalLeadValue = JSNum.mul res.leads avgLeadValue ∧
      res.roi =
        (if JSNum.gt res.leads (JSNum.fin 0) then
          JSNum.round (JSNum.mul
            (JSNum.div (JSNum.sub res.totalLeadValue inputs.investment.toNumber)
              inputs.investment.toNumber) (JSNum.fin 100))
        else JSNum.fin 0) ∧
      res.impressionToLead =
        JSNum.mul (JSNum.div res.leads res.impressions) (JSNum.fin 100) ∧
      res.costPerClick = inputs.costPerClick.toNumber ∧
      res.totalInvestment = inputs.investment.toNumber ∧
      res.clickRate = inputs.clickRate.toNumber ∧
      res.conversionRate = inputs.conversionRate.toNumber ∧
      res.impressionToClick = inputs.clickRate.toNumber ∧
      res.clickToLead = inputs.conversionRate.toNumber ∧
      res.performance =
        evaluatePerformance
          { clickRate := inputs.clickRate.toNumber
            conversionRate := inputs.conversionRate.toNumber
            costPerLead := res.costPerLead
            roi := res.roi } := by
  obtain ⟨h1, h2, h3, h4⟩ := h
  unfold calculateLeadsFunnel
  rw [if_neg (by simp [h1, h2, h3, h4])]
  exact ⟨_, rfl, rfl, rfl, rfl, rfl, rfl, rfl, rfl, rfl, rfl, rfl, rfl, rfl, rfl, rfl, rfl⟩

theorem Inputs.ofRat_allTruthy (i c r v : ℚ) (hi : i ≠ 0) (hc : c ≠ 0) (hr : r ≠ 0)
    (hv : v ≠ 0) : (Inputs.ofRat i c r v).allTruthy := by
  simp [Inputs.allTruthy, Inputs.ofRat, JSVal.truthy, JSNum.truthy, hi, hc, hr, hv]

theorem floor_half : ⌊(0 : ℚ) + 1 / 2⌋ = 0 := by
  rw [Int.floor_eq_iff]; norm_num

/-- The record returned on four strictly positive finite fields, with the three counts as
integers and the derived metrics in rational arithmetic. -/
theorem funnel_pos (i c r v : ℚ) (hi : 0 < i) (hc : 0 < c) (hr : 0 < r) (hv : 0 < v) :
    ∃ (res : FunnelResult) (I C L : ℤ),
      calculateLeadsFunnel (Inputs.ofRat i c r v) = some res ∧
      res.impressions = JSNum.fin I ∧ res.clicks = JSNum.fin C ∧ res.leads = JSNum.fin L ∧
      I = ⌊i / (c * (r / 100)) + 1 / 2⌋ ∧
      C = ⌊(I : ℚ) * (r / 100) + 1 / 2⌋ ∧
      L = ⌊(C : ℚ) * (v / 100) + 1 / 2⌋ ∧
      res.costPerLead = (if 0 < L then JSNum.fin (⌊i / L + 1 / 2⌋ : ℤ) else JSNum.fin 0) ∧
      res.leadValue = JSNum.fin 45000 ∧
      res.totalLeadValue = JSNum.fin ((L : ℚ) * 45000) ∧
      res.roi =
        (if 0 < L then JSNum.fin (⌊((L : ℚ) * 45000 - i) / i * 100 + 1 / 2⌋ : ℤ)
        else JSNum.fin 0) ∧
      res.impressionToLead = (if I = 0 then JSNum.nan else JSNum.fin ((L : ℚ) / I * 100)) ∧
      res.performance =
        evaluatePerformance
          { clickRate := JSNum.fin r
            conversionRate := JSNum.fin v
            costPerLead := res.costPerLead
            roi := res.roi } := by
  obtain ⟨res, hres, hI, hC, hL, hcpl, hlv, htlv, hroi, hitl, -, -, -, -, -, -, hperf⟩ :=
    funnel_fields (Inputs.ofRat i c r v)
      (Inputs.ofRat_allTruthy i c r v hi.ne' hc.ne' hr.ne' hv.ne')
  have h100 : (100 : ℚ) ≠ 0 := by norm_num
  have hcr : c * (r / 100) ≠ 0 := by positivity
  simp only [Inputs.ofRat, JSVal.toNumber] at hI hC hL hcpl htlv hroi hitl hperf
  rw [JSNum.div_fin _ _ h100, JSNum.mul_fin, JSNum.div_fin _ _ hcr, JSNum.round_fin] at hI
  obtain ⟨I, hId⟩ : ∃ I : ℤ, I = ⌊i / (c * (r / 100)) + 1 / 2⌋ := ⟨_, rfl⟩
  rw [← hId] at hI
  rw [hI, JSNum.div_fin _ _ h100, JSNum.mul_fin, JSNum.round_fin] at hC
  obtain ⟨C, hCd⟩ : ∃ C : ℤ, C = ⌊(I : ℚ) * (r / 100) + 1 / 2⌋ := ⟨_, rfl⟩
  rw [← hCd] at hC
  rw [hC, JSNum.div_fin _ _ h100, JSNum.mul_fin, JSNum.round_fin] at hL
  obtain ⟨L, hLd⟩ : ∃ L : ℤ, L = ⌊(C : ℚ) * (v / 100) + 1 / 2⌋ := ⟨_, rfl⟩
  rw [← hLd] at hL
  have htlv' : res.totalLeadValue = JSNum.fin ((L : ℚ) * 45000) := by
    rw [htlv, hL]; rfl
  refine ⟨res, I, C, L, hres, hI, hC, hL, hId, hCd, hLd, ?_, hlv, htlv', ?_, ?_, hperf⟩
  · rw [hcpl, hL, JSNum.gt_fin]
    by_cases h0 : (0 : ℤ) < L
    · have h0' : (0 : ℚ) < (L : ℚ) := by exact_mod_cast h0
      rw [if_pos (by simpa using h0'), if_pos h0, JSNum.div_fin _ _ h0'.ne', JSNum.round_fin]
    · have h0' : ¬ (0 : ℚ) < (L : ℚ) := by exact_mod_cast h0
      rw [if_neg (by simpa using h0'), if_neg h0]
  · rw [hroi, htlv', hL, JSNum.gt_fin]
    by_cases h0 : (0 : ℤ) < L
    · have h0' : (0 : ℚ) < (L : ℚ) := by exact_mod_cast h0
      rw [if_pos (by simpa using h0'), if_pos h0, JSNum.sub_fin, JSNum.div_fin _ _ hi.ne',
        JSNum.mul_fin, JSNum.round_fin]
    · have h0' : ¬ (0 : ℚ) < (L : ℚ) := by exact_mod_cast h0
      rw [if_neg (by simpa using h0'), if_neg h0]
  · rw [hitl, hL, hI]
    by_cases h0 : I = 0
    · have hC0 : C = 0 := by rw [hCd, h0]; simpa using floor_half
      have hL0 : L = 0 := by rw [hLd, hC0]; simpa using floor_half
      rw [if_pos h0, h0, hL0]
      simp [JSNum.div, JSNum.mul]
    · have h0' : (I : ℚ) ≠ 0 := by exact_mod_cast h0
      rw [if_neg h0, JSNum.div_fin _ _ h0', JSNum.mul_fin]

theorem defaultInputs_eq : defaultInputs = Inputs.ofRat 150000 750 (23 / 10) (42 / 10) := rfl

/-! ## The funnel -/

/-- C2: on the reference input (the hook's initial state: investment 150000, cost per click
750, click rate 2.3, conversion rate 4.2) the result has impressions 8696, clicks 200,
leads 8, cost per lead 18750, total lead value 360000 and roi 140. -/
theorem calculateLeadsFunnel_reference :
    ∃ res : FunnelResult,
      calculateLeadsFunnel defaultInputs = some res ∧
      res.impressions = JSNum.fin 8696 ∧ res.clicks = JSNum.fin 200 ∧
      res.leads = JSNum.fin 8 ∧ res.costPerLead = JSNum.fin 18750 ∧
      res.totalLeadValue = JSNum.fin 360000 ∧ res.roi = JSNum.fin 140 := by
  obtain ⟨res, I, C, L, hres, hI, hC, hL, hId, hCd, hLd, hcpl, -, htlv, hroi, -⟩ :=
    funnel_pos 150000 750 (23 / 10) (42 / 10) (by norm_num) (by norm_num) (by norm_num)
      (by norm_num)
  have hI' : I = 8696 := by
    rw [hId, Int.floor_eq_iff]; norm_num
  subst hI'
  have hC' : C = 200 := by
    rw [hCd, Int.floor_eq_iff]; norm_num
  subst hC'
  have hL' : L = 8 := by
    rw [hLd, Int.floor_eq_iff]; norm_num
  subst hL'
  have h1 : (⌊(150000 : ℚ) / ((8 : ℤ) : ℚ) + 1 / 2⌋ : ℤ) = 18750 := by
    rw [Int.floor_eq_iff]; norm_num
  have h2 : (⌊(((8 : ℤ) : ℚ) * 45000 - 150000) / 150000 * 100 + 1 / 2⌋ : ℤ) = 140 := by
    rw [Int.floor_eq_iff]; norm_num
  rw [if_pos (by norm_num), h1] at hcpl
  rw [if_pos (by norm_num), h2] at hroi
  refine ⟨res, hres, ?_, ?_, ?_, ?_, ?_, ?_⟩
  · simpa using hI
  · simpa using hC
  · simpa using hL
  · simpa using hcpl
  · rw [htlv]; norm_num
  · simpa using hroi

theorem JSVal.truthy_eq_false_iff (v : JSVal) : v.truthy = false ↔ v.isMissingOrZero := by
  unfold JSVal.isMissingOrZero
  cases v with
  | undefined => simp [JSVal.truthy, JSVal.isAbsent]
  | null => simp [JSVal.truthy, JSVal.isAbsent]
  | num x =>
    cases x <;> simp [JSVal.truthy, JSNum.truthy, JSVal.isAbsent, JSVal.isNaN, JSVal.isZero]

theorem JSVal.truthy_of_isPositive (v : JSVal) (h : v.isPositive) : v.truthy = true := by
  cases v with
  | undefined => exact h.elim
  | null => exact h.elim
  | num x =>
    cases x with
    | fin q =>
      have hq : 0 < q := h
      simp [JSVal.truthy, JSNum.truthy, hq.ne']
    | nan => exact h.elim
    | posInf => rfl
    | negInf => exact h.elim

theorem JSVal.isPositive_of_not (v : JSVal) (h1 : ¬ v.isMissingOrZero) (h2 : ¬ v.isNegative) :
    v.isPositive := by
  unfold JSVal.isMissingOrZero at h1
  cases v with
  | undefined => exact absurd (Or.inl trivial) h1
  | null => exact absurd (Or.inl trivial) h1
  | num x =>
    cases x with
    | fin q =>
      have hq0 : q ≠ 0 := fun h0 => h1 (Or.inr (Or.inr h0))
      have hq1 : ¬ q < 0 := h2
      exact lt_of_le_of_ne (not_lt.1 hq1) (Ne.symm hq0)
    | nan => exact absurd (Or.inr (Or.inl trivial)) h1
    | posInf => trivial
    | negInf => exact absurd trivial h2

theorem calculateLeadsFunnel_eq_none_iff_missing (inputs : Inputs) :
    calculateLeadsFunnel inputs = none ↔ inputs.someMissingOrZero := by
  rw [calculateLeadsFunnel_eq_none_iff]
  unfold Inputs.allTruthy Inputs.someMissingOrZero
  simp only [← JSVal.truthy_eq_false_iff]
  cases inputs.investment.truthy <;> cases inputs.costPerClick.truthy <;>
    cases inputs.clickRate.truthy <;> cases inputs.conversionRate.truthy <;> simp

theorem Inputs.allTruthy_of_allPositive (inputs : Inputs) (h : inputs.allPositive) :
    inputs.allTruthy :=
  ⟨JSVal.truthy_of_isPositive _ h.1, JSVal.truthy_of_isPositive _ h.2.1,
    JSVal.truthy_of_isPositive _ h.2.2.1, JSVal.truthy_of_isPositive _ h.2.2.2⟩

/-- C4: on an input whose fields are each missing, `NaN` or a non-negative number, the
calculator returns `null` exactly when some field is missing, `NaN` or `0`; when all four are
strictly positive it returns a result record. -/
theorem calculateLeadsFunnel_null_iff_missing_or_zero (inputs : Inputs)
    (h : inputs.noneNegative) :
    (calculateLeadsFunnel inputs = none ↔ inputs.someMissingOrZero) ∧
      ((∃ res, calculateLeadsFunnel inputs = some res) ↔ inputs.allPositive) := by
  refine ⟨calculateLeadsFunnel_eq_none_iff_missing inputs, ?_, fun hpos => ?_⟩
  · rintro ⟨res, hres⟩
    have hn : ¬ inputs.someMissingOrZero := fun hm => by
      rw [(calculateLeadsFunnel_eq_none_iff_missing inputs).2 hm] at hres
      exact Option.noConfusion hres
    unfold Inputs.someMissingOrZero at hn
    simp only [not_or] at hn
    exact ⟨JSVal.isPositive_of_not _ hn.1 h.1, JSVal.isPositive_of_not _ hn.2.1 h.2.1,
      JSVal.isPositive_of_not _ hn.2.2.1 h.2.2.1, JSVal.isPositive_of_not _ hn.2.2.2 h.2.2.2⟩
  · obtain ⟨res, hres, -⟩ :=
      funnel_fields inputs (Inputs.allTruthy_of_allPositive inputs hpos)
    exact ⟨res, hres⟩

theorem calculateLeadsFunnel_null_iff_missing_or_zero_witness :
    (calculateLeadsFunnel (Inputs.mk (JSVal.num (JSNum.fin 0)) JSVal.undefined
        (JSVal.num JSNum.nan) (JSVal.num (JSNum.fin 5))) = none ↔
      (Inputs.mk (JSVal.num (JSNum.fin 0)) JSVal.undefined (JSVal.num JSNum.nan)
        (JSVal.num (JSNum.fin 5))).someMissingOrZero) ∧
    ((∃ res, calculateLeadsFunnel (Inputs.mk (JSVal.num (JSNum.fin 0)) JSVal.undefined
        (JSVal.num JSNum.nan) (JSVal.num (JSNum.fin 5))) = some res) ↔
      (Inputs.mk (JSVal.num (JSNum.fin 0)) JSVal.undefined (JSVal.num JSNum.nan)
        (JSVal.num (JSNum.fin 5))).allPositive) :=
  calculateLeadsFunnel_null_iff_missing_or_zero _
    (by simp [Inputs.noneNegative, JSVal.isNegative])

/-- C5 as stated fails: with investment -150000 and the other fields at the reference values
a field is negative, yet the calculator returns a record (impressions -8696). -/
theorem calculateLeadsFunnel_negative_not_null :
    (Inputs.ofRat (-150000) 750 (23 / 10) (42 / 10)).someNegative ∧
      ∃ res, calculateLeadsFunnel (Inputs.ofRat (-150000) 750 (23 / 10) (42 / 10)) = some res ∧
        res.impressions = JSNum.fin (-8696) := by
  constructor
  · left
    show (-150000 : ℚ) < 0
    norm_num
  · obtain ⟨res, hres, hI, -⟩ :=
      funnel_fields (Inputs.ofRat (-150000) 750 (23 / 10) (42 / 10))
        (Inputs.ofRat_allTruthy _ _ _ _ (by norm_num) (by norm_num) (by norm_num)
          (by norm_num))
    refine ⟨res, hres, ?_⟩
    simp only [Inputs.ofRat, JSVal.toNumber] at hI
    rw [JSNum.div_fin _ _ (by norm_num), JSNum.mul_fin, JSNum.div_fin _ _ (by norm_num),
      JSNum.round_fin] at hI
    have h : (⌊(-150000 : ℚ) / (750 * (23 / 10 / 100)) + 1 / 2⌋ : ℤ) = -8696 := by
      rw [Int.floor_eq_iff]; norm_num
    rw [hI, h]
    norm_num

/-- C5 amended: on an input with a negative field the calculator returns `null` exactly when
some field is missing, `NaN` or `0`; a negative field alone never causes `null`. -/
theorem calculateLeadsFunnel_negative_null_iff (inputs : Inputs) (_hneg : inputs.someNegative) :
    (calculateLeadsFunnel inputs = none ↔ inputs.someMissingOrZero) ∧
      (¬ inputs.someMissingOrZero → ∃ res, calculateLeadsFunnel inputs = some res) := by
  have hiff := calculateLeadsFunnel_eq_none_iff_missing inputs
  refine ⟨hiff, fun hn => ?_⟩
  cases hc : calculateLeadsFunnel inputs with
  | none => exact absurd (hiff.1 hc) hn
  | some res => exact ⟨res, rfl⟩

theorem calculateLeadsFunnel_negative_null_iff_witness :
    (calculateLeadsFunnel (Inputs.ofRat 150000 (-750) (23 / 10) (42 / 10)) = none ↔
      (Inputs.ofRat 150000 (-750) (23 / 10) (42 / 10)).someMissingOrZero) ∧
    (¬ (Inputs.ofRat 150000 (-750) (23 / 10) (42 / 10)).someMissingOrZero →
      ∃ res, calculateLeadsFunnel (Inputs.ofRat 150000 (-750) (23 / 10) (42 / 10)) = some res) :=
  calculateLeadsFunnel_negative_null_iff _
    (Or.inr (Or.inl (show (-750 : ℚ) < 0 by norm_num)))

/-! ## Cost, value and return -/

/-- The fields of a returned record, for any input on which a record is returned. -/
theorem funnel_fields_of_eq (inputs : Inputs) (res : FunnelResult)
    (h : calculateLeadsFunnel inputs = some res) :
    inputs.allTruthy ∧
      res.impressions =
        JSNum.round (JSNum.div inputs.investment.toNumber
          (JSNum.mul inputs.costPerClick.toNumber
            (JSNum.div inputs.clickRate.toNumber (JSNum.fin 100)))) ∧
      res.clicks =
        JSNum.round (JSNum.mul res.impressions
          (JSNum.div inputs.clickRate.toNumber (JSNum.fin 100))) ∧
      res.leads =
        JSNum.round (JSNum.mul res.clicks
          (JSNum.div inputs.conversionRate.toNumber (JSNum.fin 100))) ∧
      res.costPerLead =
        (if JSNum.gt res.leads (JSNum.fin 0) then
          JSNum.round (JSNum.div inputs.investment.toNumber res.leads)
        else JSNum.fin 0) ∧
      res.leadValue = avgLeadValue ∧
      res.totalLeadValue = JSNum.mul res.leads avgLeadValue ∧
      res.roi =
        (if JSNum.gt res.leads (JSNum.fin 0) then
          JSNum.round (JSNum.mul
            (JSNum.div (JSNum.sub res.totalLeadValue inputs.investment.toNumber)
              inputs.investment.toNumber) (JSNum.fin 100))
        else JSNum.fin 0) ∧
      res.impressionToLead =
        JSNum.mul (JSNum.div res.leads res.impressions) (JSNum.fin 100) ∧
      res.costPerClick = inputs.costPerClick.toNumber ∧
      res.totalInvestment = inputs.investment.toNumber ∧
      res.clickRate = inputs.clickRate.toNumber ∧
      res.conversionRate = inputs.conversionRate.toNumber ∧
      res.impressionToClick = inputs.clickRate.toNumber ∧
      res.clickToLead = inputs.conversionRate.toNumber ∧
      res.performance =
        evaluatePerformance
          { clickRate := inputs.clickRate.toNumber
            conversionRate := inputs.conversionRate.toNumber
            costPerLead := res.costPerLead
            roi := res.roi } := by
  have ht : inputs.allTruthy := by
    by_contra hn
    rw [(calculateLeadsFunnel_eq_none_iff inputs).2 hn] at h
    exact Option.noConfusion h
  obtain ⟨res', hres', hrest⟩ := funnel_fields inputs ht
  have heq : res' = res := Option.some.inj (hres'.symm.trans h)
  subst heq
  exact ⟨ht, hrest⟩

/-- C6: whenever a record is returned, its cost per lead is `0` when leads is `0` and is
`Math.round(investment / leads)` when leads is greater than `0`; for a finite investment `i`
and a positive integer lead count `L` that is the nearest integer (ties up) to `i / L`. -/
theorem calculateLeadsFunnel_costPerLead (inputs : Inputs) (res : FunnelResult)
    (h : calculateLeadsFunnel inputs = some res) :
    (res.leads = JSNum.fin 0 → res.costPerLead = JSNum.fin 0) ∧
      (JSNum.gt res.leads (JSNum.fin 0) = true →
        res.costPerLead = JSNum.round (JSNum.div inputs.investment.toNumber res.leads)) ∧
      (∀ (i : ℚ) (L : ℤ), inputs.investment = JSVal.num (JSNum.fin i) →
        res.leads = JSNum.fin L → 0 < L →
        ∃ n : ℤ, res.costPerLead = JSNum.fin n ∧ NearestTiesUp (i / L) n) := by
  obtain ⟨-, -, -, -, hcpl, -⟩ := funnel_fields_of_eq inputs res h
  refine ⟨fun h0 => ?_, fun hpos => ?_, fun i L hi hL hpos => ?_⟩
  · rw [hcpl, h0]
    simp [JSNum.gt_fin]
  · rw [hcpl, if_pos hpos]
  · have hL0 : (0 : ℚ) < (L : ℚ) := by exact_mod_cast hpos
    refine ⟨⌊i / L + 1 / 2⌋, ?_, nearestTiesUp_floor _⟩
    rw [hcpl, hL, hi, JSNum.gt_fin, if_pos (by simpa using hL0)]
    simp only [JSVal.toNumber]
    rw [JSNum.div_fin _ _ hL0.ne', JSNum.round_fin]

theorem calculateLeadsFunnel_costPerLead_witness :
    ∃ res, calculateLeadsFunnel defaultInputs = some res ∧
      ((res.leads = JSNum.fin 0 → res.costPerLead = JSNum.fin 0) ∧
      (JSNum.gt res.leads (JSNum.fin 0) = true →
        res.costPerLead = JSNum.round (JSNum.div defaultInputs.investment.toNumber res.leads)) ∧
      (∀ (i : ℚ) (L : ℤ), defaultInputs.investment = JSVal.num (JSNum.fin i) →
        res.leads = JSNum.fin L → 0 < L →
        ∃ n : ℤ, res.costPerLead = JSNum.fin n ∧ NearestTiesUp (i / L) n)) := by
  obtain ⟨res, hres, -⟩ :=
    funnel_fields defaultInputs
      (Inputs.ofRat_allTruthy 150000 750 (23 / 10) (42 / 10) (by norm_num) (by norm_num)
        (by norm_num) (by norm_num))
  exact ⟨res, hres, calculateLeadsFunnel_costPerLead defaultInputs res hres⟩

/-- C8 as stated fails: on investment 45100, cost per click 451, click rate 2 and conversion
rate 1 there is one lead, the total lead value 45000 is below the investment, and roi is 0,
not strictly negative. -/
theorem calculateLeadsFunnel_roi_not_negative :
    ∃ res, calculateLeadsFunnel (Inputs.ofRat 45100 451 2 1) = some res ∧
      JSNum.gt res.leads (JSNum.fin 0) = true ∧
      JSNum.lt res.totalLeadValue (JSNum.fin 45100) = true ∧
      res.roi = JSNum.fin 0 ∧ JSNum.lt res.roi (JSNum.fin 0) = false := by
  obtain ⟨res, I, C, L, hres, -, -, hL, hId, hCd, hLd, -, -, htlv, hroi, -⟩ :=
    funnel_pos 45100 451 2 1 (by norm_num) (by norm_num) (by norm_num) (by norm_num)
  have hI' : I = 5000 := by
    rw [hId, Int.floor_eq_iff]; norm_num
  subst hI'
  have hC' : C = 100 := by
    rw [hCd, Int.floor_eq_iff]; norm_num
  subst hC'
  have hL' : L = 1 := by
    rw [hLd, Int.floor_eq_iff]; norm_num
  subst hL'
  have h2 : (⌊(((1 : ℤ) : ℚ) * 45000 - 45100) / 45100 * 100 + 1 / 2⌋ : ℤ) = 0 := by
    rw [Int.floor_eq_iff]; norm_num
  rw [if_pos (by norm_num), h2] at hroi
  have hroi' : res.roi = JSNum.fin 0 := by simpa using hroi
  refine ⟨res, hres, ?_, ?_, hroi', ?_⟩
  · rw [hL, JSNum.gt_fin]; norm_num
  · rw [htlv, JSNum.lt_fin]; norm_num
  · rw [hroi', JSNum.lt_fin]; norm_num

/-- C8 amended: on four strictly positive fields, with `L` leads and roi `R`: when `L > 0`
and the total lead value `45000 L` is below the investment, `R ≤ 0`, and `R < 0` exactly when
the unrounded percentage is below `-1/2`; when `L > 0` and the total lead value is at least
the investment, `R ≥ 0`; and `R = 0` when `L = 0`. -/
theorem calculateLeadsFunnel_roi_sign (i c r v : ℚ) (hi : 0 < i) (hc : 0 < c) (hr : 0 < r)
    (hv : 0 < v) :
    ∃ (res : FunnelResult) (L R : ℤ),
      calculateLeadsFunnel (Inputs.ofRat i c r v) = some res ∧
      res.leads = JSNum.fin L ∧ res.roi = JSNum.fin R ∧
      res.totalLeadValue = JSNum.fin ((L : ℚ) * 45000) ∧
      (0 < L → (L : ℚ) * 45000 < i → R ≤ 0) ∧
      (0 < L → (L : ℚ) * 45000 < i →
        (R < 0 ↔ (((L : ℚ) * 45000 - i) / i) * 100 < -(1 / 2))) ∧
      (0 < L → i ≤ (L : ℚ) * 45000 → 0 ≤ R) ∧
      (L = 0 → R = 0) := by
  obtain ⟨res, I, C, L, hres, -, -, hL, -, -, -, -, -, htlv, hroi, -⟩ :=
    funnel_pos i c r v hi hc hr hv
  by_cases hL0 : 0 < L
  · rw [if_pos hL0] at hroi
    refine ⟨res, L, _, hres, hL, hroi, htlv, fun _ hlt => ?_, fun _ _ => ?_, fun _ hge => ?_,
      fun h0 => absurd hL0 (by omega)⟩
    · have hx : ((L : ℚ) * 45000 - i) / i * 100 < 0 := by
        apply mul_neg_of_neg_of_pos _ (by norm_num)
        exact div_neg_of_neg_of_pos (by linarith) hi
      apply Int.le_of_lt_add_one
      rw [Int.floor_lt]
      push_cast
      linarith
    · rw [Int.floor_lt]
      push_cast
      constructor <;> intro h <;> linarith
    · have hx : 0 ≤ ((L : ℚ) * 45000 - i) / i * 100 := by
        apply mul_nonneg _ (by norm_num)
        exact div_nonneg (by linarith) hi.le
      apply Int.floor_nonneg.2
      linarith
  · rw [if_neg hL0] at hroi
    refine ⟨res, L, 0, hres, hL, by simpa using hroi, htlv, fun h => absurd h hL0,
      fun h => absurd h hL0, fun h => absurd h hL0, fun _ => rfl⟩

theorem calculateLeadsFunnel_roi_sign_witness :
    ∃ (res : FunnelResult) (L R : ℤ),
      calculateLeadsFunnel (Inputs.ofRat 45100 451 2 1) = some res ∧
      res.leads = JSNum.fin L ∧ res.roi = JSNum.fin R ∧
      res.totalLeadValue = JSNum.fin ((L : ℚ) * 45000) ∧
      (0 < L → (L : ℚ) * 45000 < 45100 → R ≤ 0) ∧
      (0 < L → (L : ℚ) * 45000 < 45100 →
        (R < 0 ↔ (((L : ℚ) * 45000 - 45100) / 45100) * 100 < -(1 / 2))) ∧
      (0 < L → 45100 ≤ (L : ℚ) * 45000 → 0 ≤ R) ∧
      (L = 0 → R = 0) :=
  calculateLeadsFunnel_roi_sign 45100 451 2 1 (by norm_num) (by norm_num) (by norm_num)
    (by norm_num)

/-- C9 fails on the code: on investment 1, cost per click 1000, click rate 100 and conversion
rate 1 the impressions round to 0 and `impressionToLead` is `NaN`, not `0`. -/
theorem calculateLeadsFunnel_impressionToLead_nan :
    ∃ res, calculateLeadsFunnel (Inputs.ofRat 1 1000 100 1) = some res ∧
      res.impressions = JSNum.fin 0 ∧ res.leads = JSNum.fin 0 ∧
      res.impressionToLead = JSNum.nan ∧ res.impressionToLead.isFinite = false := by
  obtain ⟨res, I, C, L, hres, hI, -, hL, hId, hCd, hLd, -, -, -, -, hitl, -⟩ :=
    funnel_pos 1 1000 100 1 (by norm_num) (by norm_num) (by norm_num) (by norm_num)
  have hI' : I = 0 := by
    rw [hId, Int.floor_eq_iff]; norm_num
  subst hI'
  have hC' : C = 0 := by
    rw [hCd, Int.floor_eq_iff]; norm_num
  subst hC'
  have hL' : L = 0 := by
    rw [hLd, Int.floor_eq_iff]; norm_num
  subst hL'
  rw [if_pos rfl] at hitl
  refine ⟨res, hres, by simpa using hI, by simpa using hL, hitl, ?_⟩
  rw [hitl]
  rfl

/-! ## Performance rating -/

/-- C10: the click rate and the conversion rate are rated highest tier first: click rate is
excellent from 4.0, good from 2.5, average from 1.8, else poor; conversion is excellent from
8.0, good from 5.0, average from 3.0, else poor. -/
theorem evaluatePerformance_rate_tiers (clickRate conversionRate : ℚ)
    (costPerLead roi : JSNum) :
    (evaluatePerformance
        { clickRate := JSNum.fin clickRate, conversionRate := JSNum.fin conversionRate,
          costPerLead := costPerLead, roi := roi }).clickRate =
      (if clickRate ≥ 4 then Label.excellent
        else if clickRate ≥ 5 / 2 then Label.good
        else if clickRate ≥ 9 / 5 then Label.average
        else Label.poor) ∧
    (evaluatePerformance
        { clickRate := JSNum.fin clickRate, conversionRate := JSNum.fin conversionRate,
          costPerLead := costPerLead, roi := roi }).conversion =
      (if conversionRate ≥ 8 then Label.excellent
        else if conversionRate ≥ 5 then Label.good
        else if conversionRate ≥ 3 then Label.average
        else Label.poor) := by
  constructor
  · simp only [evaluatePerformance, benchmarksClickRate, JSNum.ge_fin, decide_eq_true_eq,
      ge_iff_le]
  · simp only [evaluatePerformance, benchmarksConversionRate, JSNum.ge_fin, decide_eq_true_eq,
      ge_iff_le]


/-- C11: the cost per lead is rated in the inverted sense: excellent up to 8000, good up to
12000, acceptable up to 18000, else expensive; the cost rating is never average or poor,
whatever the metrics. -/
theorem evaluatePerformance_cost_tiers :
    (∀ (costPerLead : ℚ) (clickRate conversionRate roi : JSNum),
      (evaluatePerformance
          { clickRate := clickRate, conversionRate := conversionRate,
            costPerLead := JSNum.fin costPerLead, roi := roi }).cost =
        (if costPerLead ≤ 8000 then Label.excellent
          else if costPerLead ≤ 12000 then Label.good
          else if costPerLead ≤ 18000 then Label.acceptable
          else Label.expensive)) ∧
    (∀ metrics : Metrics,
      (evaluatePerformance metrics).cost ≠ Label.average ∧
        (evaluatePerformance metrics).cost ≠ Label.poor) := by
  constructor
  · intro costPerLead clickRate conversionRate roi
    simp only [evaluatePerformance, benchmarksCostPerLead, JSNum.le_fin, decide_eq_true_eq]
  · intro metrics
    simp only [evaluatePerformance]
    constructor <;> split_ifs <;> simp

/-- C12: the roi is rated excellent from 200, good from 100, average from 50, else poor. -/
theorem evaluatePerformance_roi_tiers (roi : ℚ) (clickRate conversionRate costPerLead : JSNum) :
    (evaluatePerformance
        { clickRate := clickRate, conversionRate := conversionRate,
          costPerLead := costPerLead, roi := JSNum.fin roi }).roi =
      (if roi ≥ 200 then Label.excellent
        else if roi ≥ 100 then Label.good
        else if roi ≥ 50 then Label.average
        else Label.poor) := by
  simp only [evaluatePerformance, JSNum.ge_fin, decide_eq_true_eq, ge_iff_le]

theorem labelScore_nat (a : Label) : ∃ n : ℕ, labelScore a = n ∧ 1 ≤ n ∧ n ≤ 4 := by
  cases a
  · exact ⟨4, by simp [labelScore], by omega, by omega⟩
  · exact ⟨3, by simp [labelScore], by omega, by omega⟩
  · exact ⟨2, by simp [labelScore], by omega, by omega⟩
  · exact ⟨1, by simp [labelScore], by omega, by omega⟩
  · exact ⟨1, by simp [labelScore], by omega, by omega⟩
  · exact ⟨1, by simp [labelScore], by omega, by omega⟩

theorem calculateOverallScore_four (a b c d : Label) :
    calculateOverallScore [a, b, c, d] =
      (if (labelScore a + labelScore b + labelScore c + labelScore d) / 4 ≥ 7 / 2 then
        Label.excellent
      else if (labelScore a + labelScore b + labelScore c + labelScore d) / 4 ≥ 5 / 2 then
        Label.good
      else if (labelScore a + labelScore b + labelScore c + labelScore d) / 4 ≥ 3 / 2 then
        Label.average
      else Label.poor) := by
  have h4 : ((([a, b, c, d] : List Label).length : ℕ) : ℚ) = 4 := by norm_num
  simp only [calculateOverallScore, List.map, List.foldl, h4, zero_add]
  rw [JSNum.div_fin _ _ (by norm_num)]
  simp only [JSNum.ge_fin, decide_eq_true_eq, ge_iff_le]

theorem overall_of_sum (N : ℕ) :
    (if (N : ℚ) / 4 ≥ 7 / 2 then Label.excellent
      else if (N : ℚ) / 4 ≥ 5 / 2 then Label.good
      else if (N : ℚ) / 4 ≥ 3 / 2 then Label.average
      else Label.poor) =
    (if 14 ≤ N then Label.excellent
      else if 10 ≤ N then Label.good
      else if 6 ≤ N then Label.average
      else Label.poor) := by
  have h1 : ((N : ℚ) / 4 ≥ 7 / 2) ↔ 14 ≤ N := by
    rw [ge_iff_le, le_div_iff₀ (by norm_num)]
    norm_num
  have h2 : ((N : ℚ) / 4 ≥ 5 / 2) ↔ 10 ≤ N := by
    rw [ge_iff_le, le_div_iff₀ (by norm_num)]
    norm_num
  have h3 : ((N : ℚ) / 4 ≥ 3 / 2) ↔ 6 ≤ N := by
    rw [ge_iff_le, le_div_iff₀ (by norm_num)]
    norm_num
  simp only [h1, h2, h3]

/-- C13: the overall rating scores each of the four ratings (excellent 4, good 3, average 2,
any other label 1), averages the scores and returns excellent from 3.5, good from 2.5,
average from 1.5, else poor; on the score sum `S` (between 4 and 16) that is excellent iff
`S ≥ 14`, good iff `10 ≤ S ≤ 13`, average iff `6 ≤ S ≤ 9`, poor iff `S ≤ 5`; and
`evaluatePerformance` applies it to its four ratings. -/
theorem calculateOverallScore_average_and_sum :
    (∀ a b c d : Label,
      calculateOverallScore [a, b, c, d] =
        (if (labelScore a + labelScore b + labelScore c + labelScore d) / 4 ≥ 7 / 2 then
          Label.excellent
        else if (labelScore a + labelScore b + labelScore c + labelScore d) / 4 ≥ 5 / 2 then
          Label.good
        else if (labelScore a + labelScore b + labelScore c + labelScore d) / 4 ≥ 3 / 2 then
          Label.average
        else Label.poor) ∧
      ∃ S : ℕ, (S : ℚ) = labelScore a + labelScore b + labelScore c + labelScore d ∧
        4 ≤ S ∧ S ≤ 16 ∧
        (calculateOverallScore [a, b, c, d] = Label.excellent ↔ 14 ≤ S) ∧
        (calculateOverallScore [a, b, c, d] = Label.good ↔ 10 ≤ S ∧ S ≤ 13) ∧
        (calculateOverallScore [a, b, c, d] = Label.average ↔ 6 ≤ S ∧ S ≤ 9) ∧
        (calculateOverallScore [a, b, c, d] = Label.poor ↔ S ≤ 5)) ∧
    (∀ a : Label, labelScore a =
      (if a = Label.excellent then 4 else if a = Label.good then 3
        else if a = Label.average then 2 else 1)) ∧
    (∀ metrics : Metrics,
      (evaluatePerformance metrics).overall =
        calculateOverallScore
          [(evaluatePerformance metrics).clickRate, (evaluatePerformance metrics).conversion,
            (evaluatePerformance metrics).cost, (evaluatePerformance metrics).roi]) := by
  refine ⟨fun a b c d => ⟨calculateOverallScore_four a b c d, ?_⟩, fun a => ?_, fun _ => rfl⟩
  · obtain ⟨na, ha, ha1, ha4⟩ := labelScore_nat a
    obtain ⟨nb, hb, hb1, hb4⟩ := labelScore_nat b
    obtain ⟨nc, hc, hc1, hc4⟩ := labelScore_nat c
    obtain ⟨nd, hd, hd1, hd4⟩ := labelScore_nat d
    have hS : labelScore a + labelScore b + labelScore c + labelScore d
        = ((na + nb + nc + nd : ℕ) : ℚ) := by
      rw [ha, hb, hc, hd]; push_cast; ring
    refine ⟨na + nb + nc + nd, hS.symm, by omega, by omega, ?_⟩
    rw [calculateOverallScore_four, hS, overall_of_sum]
    generalize na + nb + nc + nd = N
    by_cases h14 : 14 ≤ N
    · simp only [if_pos h14]
      refine ⟨?_, ?_, ?_, ?_⟩ <;> simp <;> omega
    · by_cases h10 : 10 ≤ N
      · simp only [if_neg h14, if_pos h10]
        refine ⟨?_, ?_, ?_, ?_⟩ <;> simp <;> omega
      · by_cases h6 : 6 ≤ N
        · simp only [if_neg h14, if_neg h10, if_pos h6]
          refine ⟨?_, ?_, ?_, ?_⟩ <;> simp <;> omega
        · simp only [if_neg h14, if_neg h10, if_neg h6]
          refine ⟨?_, ?_, ?_, ?_⟩ <;> simp <;> omega
  · cases a <;> simp [labelScore]


/-! ## Tips -/

theorem notAfter_iff (a b : Tip) :
    notAfter a b ↔ priorityOrder b.priority ≤ priorityOrder a.priority := by
  unfold notAfter comparePriority
  omega

theorem conversionTip_priority : conversionTip.priority = Priority.high := rfl

theorem costTip_priority (host : Host) (c : JSNum) :
    (costTip host c).priority = Priority.medium := rfl

theorem budgetTip_priority : budgetTip.priority = Priority.medium := rfl

theorem trafficTip_priority : trafficTip.priority = Priority.high := rfl

theorem roiTip_priority : roiTip.priority = Priority.high := rfl

theorem optimizationTip_priority : optimizationTip.priority = Priority.low := rfl

theorem marketTip_priority : marketTip.priority = Priority.low := rfl

theorem orderedInsert_append_of_not (a : Tip) (l₁ l₂ : List Tip)
    (h : ∀ b ∈ l₁, ¬ notAfter a b) :
    List.orderedInsert notAfter a (l₁ ++ l₂) = l₁ ++ List.orderedInsert notAfter a l₂ := by
  induction l₁ with
  | nil => rfl
  | cons b l ih =>
    have hb : ¬ notAfter a b := h b (List.mem_cons_self b l)
    have hl : ∀ c ∈ l, ¬ notAfter a c := fun c hc => h c (List.mem_cons_of_mem b hc)
    simp only [List.cons_append, List.orderedInsert, if_neg hb]
    exact congrArg (List.cons b) (ih hl)

theorem orderedInsert_of_all (a : Tip) (l : List Tip) (h : ∀ b ∈ l, notAfter a b) :
    List.orderedInsert notAfter a l = a :: l := by
  cases l with
  | nil => rfl
  | cons b l =>
    simp only [List.orderedInsert, if_pos (h b (List.mem_cons_self b l))]

/-- The sort is stable: it returns the high-priority tips, then the medium ones, then the low
ones, each group in the order of the original list. -/
theorem sortByPriority_eq_filter (l : List Tip) :
    sortByPriority l =
      l.filter (fun t => decide (t.priority = Priority.high)) ++
      l.filter (fun t => decide (t.priority = Priority.medium)) ++
      l.filter (fun t => decide (t.priority = Priority.low)) := by
  induction l with
  | nil => rfl
  | cons a l ih =>
    have hstep : sortByPriority (a :: l) = List.orderedInsert notAfter a (sortByPriority l) :=
      rfl
    rw [hstep, ih]
    have hH : ∀ b ∈ l.filter (fun t => decide (t.priority = Priority.high)),
        b.priority = Priority.high := fun b hb => by simpa using (List.mem_filter.1 hb).2
    have hM : ∀ b ∈ l.filter (fun t => decide (t.priority = Priority.medium)),
        b.priority = Priority.medium := fun b hb => by simpa using (List.mem_filter.1 hb).2
    have hL : ∀ b ∈ l.filter (fun t => decide (t.priority = Priority.low)),
        b.priority = Priority.low := fun b hb => by simpa using (List.mem_filter.1 hb).2
    cases hp : a.priority with
    | high =>
      rw [orderedInsert_of_all]
      · simp [List.filter_cons, hp]
      · intro b _
        rw [notAfter_iff, hp]
        cases b.priority <;> simp [priorityOrder]
    | medium =>
      rw [List.append_assoc, orderedInsert_append_of_not, orderedInsert_of_all]
      · simp [List.filter_cons, hp]
      · intro b hb
        rw [notAfter_iff, hp]
        rcases List.mem_append.1 hb with hb | hb
        · rw [hM b hb]
        · rw [hL b hb]; simp [priorityOrder]
      · intro b hb
        rw [notAfter_iff, hp, hH b hb]
        simp [priorityOrder]
    | low =>
      rw [orderedInsert_append_of_not, orderedInsert_of_all]
      · simp [List.filter_cons, hp]
      · intro b hb
        rw [notAfter_iff, hp, hL b hb]
      · intro b hb
        rw [notAfter_iff, hp]
        rcases List.mem_append.1 hb with hb | hb
        · rw [hH b hb]; simp [priorityOrder]
        · rw [hM b hb]; simp [priorityOrder]

theorem ite_push (c : Prop) [Decidable c] (l : List Tip) (t : Tip) :
    (if c then l ++ [t] else l) = l ++ (if c then [t] else []) := by
  split_ifs <;> simp

theorem filter_ite_singleton (p : Tip → Bool) (c : Prop) [Decidable c] (t : Tip) :
    List.filter p (if c then [t] else []) = if c then (if p t then [t] else []) else [] := by
  split_ifs <;> simp [*]

/-- The tip list on present arguments: the tips of the matched high-priority rules, then of
the medium ones, then of the low ones, each group in the order of the rules. -/
theorem generateMarketingTips_some (host : Host) (results : FunnelResult) (inputs : Inputs) :
    generateMarketingTips host (some results) (some inputs) =
      (if JSNum.lt inputs.conversionRate.toNumber (JSNum.fin 3) then [conversionTip] else []) ++
      (if JSNum.lt inputs.clickRate.toNumber (JSNum.fin 2) then [trafficTip] else []) ++
      (if JSNum.lt results.roi (JSNum.fin 100) then [roiTip] else []) ++
      (if JSNum.gt results.costPerLead (JSNum.fin 15000) then
        [costTip host results.costPerLead] else []) ++
      (if JSNum.lt inputs.investment.toNumber (JSNum.fin 100000) then [budgetTip] else []) ++
      (if results.performance.overall = Label.excellent then [optimizationTip] else []) ++
      (if JSNum.gt results.leads (JSNum.fin 0) then [marketTip] else []) := by
  simp only [generateMarketingTips, sortByPriority_eq_filter, ite_push, List.nil_append,
    List.filter_append, filter_ite_singleton, conversionTip_priority, costTip_priority,
    budgetTip_priority, trafficTip_priority, roiTip_priority, optimizationTip_priority,
    marketTip_priority]
  simp

theorem countP_ite_singleton (p : Tip → Bool) (c : Prop) [Decidable c] (t : Tip) :
    List.countP p (if c then [t] else []) = if c then (if p t then 1 else 0) else 0 := by
  split_ifs <;> simp [*]

theorem length_ite_singleton (c : Prop) [Decidable c] (t : Tip) :
    (if c then [t] else []).length = if c then 1 else 0 := by
  split_ifs <;> simp

theorem mem_ite_singleton (c : Prop) [Decidable c] (t a : Tip) :
    t ∈ (if c then [a] else []) ↔ c ∧ t = a := by
  split_ifs <;> simp [*]

/-- C14: on present arguments the list holds exactly one tip per matched rule and nothing
else: a conversion/high tip iff `conversionRate < 3`, a cost/medium tip iff
`costPerLead > 15000`, a budget/medium tip iff `investment < 100000`, a traffic/high tip iff
`clickRate < 2`, a roi/high tip iff `roi < 100`, an optimization/low tip iff the overall
rating is excellent, a market/low tip iff `leads > 0`; the length is the number of matched
rules; with conversion rate 2.5 the conversion tip is there, with 5 it is not. -/
theorem generateMarketingTips_one_tip_per_rule (host : Host) (results : FunnelResult)
    (inputs : Inputs) :
    ((generateMarketingTips host (some results) (some inputs)).countP
        (fun t => decide (t.category = Category.conversion ∧ t.priority = Priority.high)) =
      if JSNum.lt inputs.conversionRate.toNumber (JSNum.fin 3) then 1 else 0) ∧
    ((generateMarketingTips host (some results) (some inputs)).countP
        (fun t => decide (t.category = Category.cost ∧ t.priority = Priority.medium)) =
      if JSNum.gt results.costPerLead (JSNum.fin 15000) then 1 else 0) ∧
    ((generateMarketingTips host (some results) (some inputs)).countP
        (fun t => decide (t.category = Category.budget ∧ t.priority = Priority.medium)) =
      if JSNum.lt inputs.investment.toNumber (JSNum.fin 100000) then 1 else 0) ∧
    ((generateMarketingTips host (some results) (some inputs)).countP
        (fun t => decide (t.category = Category.traffic ∧ t.priority = Priority.high)) =
      if JSNum.lt inputs.clickRate.toNumber (JSNum.fin 2) then 1 else 0) ∧
    ((generateMarketingTips host (some results) (some inputs)).countP
        (fun t => decide (t.category = Category.roi ∧ t.priority = Priority.high)) =
      if JSNum.lt results.roi (JSNum.fin 100) then 1 else 0) ∧
    ((generateMarketingTips host (some results) (some inputs)).countP
        (fun t => decide (t.category = Category.optimization ∧ t.priority = Priority.low)) =
      if results.performance.overall = Label.excellent then 1 else 0) ∧
    ((generateMarketingTips host (some results) (some inputs)).countP
        (fun t => decide (t.category = Category.market ∧ t.priority = Priority.low)) =
      if JSNum.gt results.leads (JSNum.fin 0) then 1 else 0) ∧
    ((generateMarketingTips host (some results) (some inputs)).length =
      (if JSNum.lt inputs.conversionRate.toNumber (JSNum.fin 3) then 1 else 0) +
      (if JSNum.gt results.costPerLead (JSNum.fin 15000) then 1 else 0) +
      (if JSNum.lt inputs.investment.toNumber (JSNum.fin 100000) then 1 else 0) +
      (if JSNum.lt inputs.clickRate.toNumber (JSNum.fin 2) then 1 else 0) +
      (if JSNum.lt results.roi (JSNum.fin 100) then 1 else 0) +
      (if results.performance.overall = Label.excellent then 1 else 0) +
      (if JSNum.gt results.leads (JSNum.fin 0) then 1 else 0)) ∧
    (∃ t ∈ generateMarketingTips host (some results)
        (some { inputs with conversionRate := JSVal.num (JSNum.fin (5 / 2)) }),
      t.category = Category.conversion ∧ t.priority = Priority.high) ∧
    (∀ t ∈ generateMarketingTips host (some results)
        (some { inputs with conversionRate := JSVal.num (JSNum.fin 5) }),
      t.category ≠ Category.conversion) := by
  have hc1 : conversionTip.category = Category.conversion := rfl
  have hc2 : (costTip host results.costPerLead).category = Category.cost := rfl
  have hc3 : budgetTip.category = Category.budget := rfl
  have hc4 : trafficTip.category = Category.traffic := rfl
  have hc5 : roiTip.category = Category.roi := rfl
  have hc6 : optimizationTip.category = Category.optimization := rfl
  have hc7 : marketTip.category = Category.market := rfl
  refine ⟨?_, ?_, ?_, ?_, ?_, ?_, ?_, ?_, ?_, ?_⟩
  · simp [generateMarketingTips_some, List.countP_append, countP_ite_singleton, hc1, hc2, hc3,
      hc4, hc5, hc6, hc7, conversionTip_priority]
  · simp [generateMarketingTips_some, List.countP_append, countP_ite_singleton, hc1, hc2, hc3,
      hc4, hc5, hc6, hc7, costTip_priority]
  · simp [generateMarketingTips_some, List.countP_append, countP_ite_singleton, hc1, hc2, hc3,
      hc4, hc5, hc6, hc7, budgetTip_priority]
  · simp [generateMarketingTips_some, List.countP_append, countP_ite_singleton, hc1, hc2, hc3,
      hc4, hc5, hc6, hc7, trafficTip_priority]
  · simp [generateMarketingTips_some, List.countP_append, countP_ite_singleton, hc1, hc2, hc3,
      hc4, hc5, hc6, hc7, roiTip_priority]
  · simp [generateMarketingTips_some, List.countP_append, countP_ite_singleton, hc1, hc2, hc3,
      hc4, hc5, hc6, hc7, optimizationTip_priority]
  · simp [generateMarketingTips_some, List.countP_append, countP_ite_singleton, hc1, hc2, hc3,
      hc4, hc5, hc6, hc7, marketTip_priority]
  · simp only [generateMarketingTips_some, List.length_append, length_ite_singleton]
    ring
  · refine ⟨conversionTip, ?_, rfl, rfl⟩
    rw [generateMarketingTips_some]
    have h : JSNum.lt (JSVal.toNumber (JSVal.num (JSNum.fin (5 / 2)))) (JSNum.fin 3) = true := by
      simp only [JSVal.toNumber, JSNum.lt_fin]
      norm_num
    simp [h]
  · intro t ht
    rw [generateMarketingTips_some] at ht
    have h : ¬ JSNum.lt (JSVal.toNumber (JSVal.num (JSNum.fin 5))) (JSNum.fin 3) = true := by
      simp only [JSVal.toNumber, JSNum.lt_fin]
      norm_num
    simp only [List.mem_append, mem_ite_singleton] at ht
    rcases ht with
      ((((((⟨hcv, -⟩ | ⟨-, rfl⟩) | ⟨-, rfl⟩) | ⟨-, rfl⟩) | ⟨-, rfl⟩) | ⟨-, rfl⟩) | ⟨-, rfl⟩)
    · exact absurd hcv h
    · simp [hc4]
    · simp [hc5]
    · simp [hc2]
    · simp [hc3]
    · simp [hc6]
    · simp [hc7]


instance : IsTotal Tip notAfter :=
  ⟨fun a b => by
    simp only [notAfter_iff]
    exact le_total _ _⟩

instance : IsTrans Tip notAfter :=
  ⟨fun a b c hab hbc => by
    simp only [notAfter_iff] at *
    exact le_trans hbc hab⟩

theorem sortByPriority_pairwise (tips : List Tip) :
    List.Pairwise (fun a b => priorityOrder a.priority ≥ priorityOrder b.priority)
      (sortByPriority tips) := by
  have h : List.Sorted notAfter (sortByPriority tips) := List.sorted_insertionSort notAfter tips
  exact List.Pairwise.imp (fun hab => (notAfter_iff _ _).1 hab) h

theorem generateMarketingTips_eq_sort (host : Host) (results : Option FunnelResult)
    (inputs : Option Inputs) :
    ∃ pushed, generateMarketingTips host results inputs = sortByPriority pushed := by
  cases results with
  | none => cases inputs <;> exact ⟨[], rfl⟩
  | some r =>
    cases inputs with
    | none => exact ⟨[], rfl⟩
    | some i => exact ⟨_, rfl⟩

theorem map_category_ite_singleton (c : Prop) [Decidable c] (t : Tip) :
    (if c then [t] else []).map Tip.category = if c then [t.category] else [] := by
  split_ifs <;> rfl

theorem ite_singleton_sublist (c : Prop) [Decidable c] (k : Category) :
    (if c then [k] else []).Sublist [k] := by
  split_ifs <;> simp

/-- C15: for every result and inputs the returned list is sorted by priority descending (every
tip has a priority at least that of each later tip, so high tips come first, then medium,
then low), and the sort being stable its categories form a subsequence of conversion,
traffic, roi, cost, budget, optimization, market. -/
theorem generateMarketingTips_sorted_stable (host : Host) (results : Option FunnelResult)
    (inputs : Option Inputs) :
    List.Pairwise (fun a b => priorityOrder a.priority ≥ priorityOrder b.priority)
        (generateMarketingTips host results inputs) ∧
      ((generateMarketingTips host results inputs).map Tip.category).Sublist
        [Category.conversion, Category.traffic, Category.roi, Category.cost, Category.budget,
          Category.optimization, Category.market] := by
  constructor
  · obtain ⟨pushed, hp⟩ := generateMarketingTips_eq_sort host results inputs
    rw [hp]
    exact sortByPriority_pairwise pushed
  · cases results with
    | none => simp [generateMarketingTips]
    | some r =>
      cases inputs with
      | none => simp [generateMarketingTips]
      | some i =>
        rw [generateMarketingTips_some]
        simp only [List.map_append, map_category_ite_singleton]
        exact
          ((((((ite_singleton_sublist _ _).append (ite_singleton_sublist _ _)).append
            (ite_singleton_sublist _ _)).append (ite_singleton_sublist _ _)).append
            (ite_singleton_sublist _ _)).append (ite_singleton_sublist _ _)).append
            (ite_singleton_sublist _ _)

/-- C16: the tip list is empty whenever the result argument is absent, whatever the inputs,
and whenever the inputs argument is absent; so it is empty on the calculator's own output
for every input with a missing or zero field. -/
theorem generateMarketingTips_absent (host : Host) (results : Option FunnelResult)
    (inputs : Option Inputs) :
    generateMarketingTips host none inputs = [] ∧
      generateMarketingTips host results none = [] ∧
      (∀ i : Inputs, i.someMissingOrZero →
        generateMarketingTips host (calculateLeadsFunnel i) (some i) = []) := by
  refine ⟨?_, ?_, fun i h => ?_⟩
  · cases inputs <;> rfl
  · cases results <;> rfl
  · rw [(calculateLeadsFunnel_eq_none_iff_missing i).2 h]
    rfl

theorem generateMarketingTips_absent_witness :
    generateMarketingTips ⟨fun _ => "", fun _ => ""⟩
      (calculateLeadsFunnel (Inputs.ofRat 0 750 (23 / 10) (42 / 10)))
      (some (Inputs.ofRat 0 750 (23 / 10) (42 / 10))) = [] :=
  (generateMarketingTips_absent ⟨fun _ => "", fun _ => ""⟩ none none).2.2
    (Inputs.ofRat 0 750 (23 / 10) (42 / 10)) (Or.inl (Or.inr (Or.inr rfl)))


/-! ## Formatting -/

theorem padDigits_one (k : ℕ) (hk : k < 10) : padDigits k 1 = toString k := by
  interval_cases k <;> decide

/-- Fixed notation with one fraction digit, for a magnitude below `10^21`. -/
theorem JSNum.toFixed_one (host : Host) (q : ℚ) (h : |q| < 10 ^ 21) :
    JSNum.toFixed host (JSNum.fin q) 1 =
      (if q < 0 then "-" else "") ++
        (toString ((⌊|q| * 10 + 1 / 2⌋ : ℤ).toNat / 10) ++ "." ++
          toString ((⌊|q| * 10 + 1 / 2⌋ : ℤ).toNat % 10)) := by
  have hge : ¬ |q| ≥ 10 ^ 21 := not_le.2 h
  simp only [JSNum.toFixed, if_neg hge, pow_one, one_ne_zero, if_false]
  rw [padDigits_one _ (Nat.mod_lt _ (by norm_num))]

/-- Fixed notation with no fraction digit, for a magnitude below `10^21`. -/
theorem JSNum.toFixed_zero (host : Host) (q : ℚ) (h : |q| < 10 ^ 21) :
    JSNum.toFixed host (JSNum.fin q) 0 =
      (if q < 0 then "-" else "") ++ toString (⌊|q| + 1 / 2⌋ : ℤ).toNat := by
  have hge : ¬ |q| ≥ 10 ^ 21 := not_le.2 h
  simp only [JSNum.toFixed, if_neg hge, pow_zero, mul_one, if_true]

theorem nearestTiesUp_toNat (x : ℚ) (hx : 0 ≤ x) :
    NearestTiesUp x ((⌊x + 1 / 2⌋ : ℤ).toNat : ℤ) := by
  have h0 : (0 : ℤ) ≤ ⌊x + 1 / 2⌋ := Int.floor_nonneg.2 (by linarith)
  rw [Int.toNat_of_nonneg h0]
  exact nearestTiesUp_floor x

/-- C18 as stated fails: `Infinity` is neither `null`, `undefined` nor `NaN`, and on it
`formatPercentage` returns `Infinity%`, which has no decimal place. -/
theorem formatPercentage_infinity :
    (fun host : Host => formatPercentage host (JSVal.num JSNum.posInf)) =
      fun _ => "Infinity%" := by
  funext host
  rfl

/-- C18 amended: `formatPercentage` returns `0.0%` on `null`, `undefined` and `NaN`; on a
finite number of magnitude below `10^21` it returns the sign, the digits of the nearest tenth
of the magnitude with exactly one fraction digit, and `%`; so 4.2 gives `4.2%` and
`undefined` gives `0.0%`. -/
theorem formatPercentage_one_decimal (host : Host) (q : ℚ) (h : |q| < 10 ^ 21) :
    formatPercentage host JSVal.null = "0.0%" ∧
    formatPercentage host JSVal.undefined = "0.0%" ∧
    formatPercentage host (JSVal.num JSNum.nan) = "0.0%" ∧
    (∃ n : ℕ, NearestTiesUp (|q| * 10) n ∧
      formatPercentage host (JSVal.num (JSNum.fin q)) =
        (if q < 0 then "-" else "") ++
          (toString (n / 10) ++ "." ++ toString (n % 10)) ++ "%") ∧
    formatPercentage host (JSVal.num (JSNum.fin (42 / 10))) = "4.2%" := by
  refine ⟨rfl, rfl, rfl, ⟨_, nearestTiesUp_toNat _ (by positivity), ?_⟩, ?_⟩
  · simp only [formatPercentage]
    rw [JSNum.toFixed_one host q h]
  · simp only [formatPercentage]
    rw [JSNum.toFixed_one host _ (by rw [abs_of_nonneg (by norm_num)]; norm_num),
      abs_of_nonneg (by norm_num)]
    have h42 : (⌊(42 / 10 : ℚ) * 10 + 1 / 2⌋ : ℤ) = 42 := by
      rw [Int.floor_eq_iff]; norm_num
    rw [h42, if_neg (by norm_num)]
    decide

theorem formatPercentage_one_decimal_witness :
    formatPercentage ⟨fun _ => "", fun _ => ""⟩ JSVal.null = "0.0%" ∧
    formatPercentage ⟨fun _ => "", fun _ => ""⟩ JSVal.undefined = "0.0%" ∧
    formatPercentage ⟨fun _ => "", fun _ => ""⟩ (JSVal.num JSNum.nan) = "0.0%" ∧
    (∃ n : ℕ, NearestTiesUp (|(-5 / 4 : ℚ)| * 10) n ∧
      formatPercentage ⟨fun _ => "", fun _ => ""⟩ (JSVal.num (JSNum.fin (-5 / 4))) =
        (if (-5 / 4 : ℚ) < 0 then "-" else "") ++
          (toString (n / 10) ++ "." ++ toString (n % 10)) ++ "%") ∧
    formatPercentage ⟨fun _ => "", fun _ => ""⟩ (JSVal.num (JSNum.fin (42 / 10))) = "4.2%" :=
  formatPercentage_one_decimal ⟨fun _ => "", fun _ => ""⟩ (-5 / 4)
    (by rw [abs_lt]; constructor <;> norm_num)

/-! ## Conversion ratios and the performance field -/

/-- C19: whenever a record is returned with impressions greater than `0`, its
`impressionToLead` is `(leads / impressions) * 100` with no rounding, for integer counts `L`
and `I > 0` the exact rational `L / I * 100`; `impressionToClick` is the input click rate and
`clickToLead` the input conversion rate, unchanged. -/
theorem calculateLeadsFunnel_conversion_ratios (inputs : Inputs) (res : FunnelResult)
    (h : calculateLeadsFunnel inputs = some res)
    (hpos : JSNum.gt res.impressions (JSNum.fin 0) = true) :
    res.impressionToLead =
        JSNum.mul (JSNum.div res.leads res.impressions) (JSNum.fin 100) ∧
      (∀ I L : ℚ, res.impressions = JSNum.fin I → res.leads = JSNum.fin L →
        res.impressionToLead = JSNum.fin (L / I * 100)) ∧
      JSVal.num res.impressionToClick = inputs.clickRate ∧
      JSVal.num res.clickToLead = inputs.conversionRate := by
  obtain ⟨ht, -, -, -, -, -, -, -, hitl, -, -, -, -, hic, hcl, -⟩ :=
    funnel_fields_of_eq inputs res h
  have hnum : ∀ v : JSVal, v.truthy = true → JSVal.num v.toNumber = v := by
    intro v hv
    cases v with
    | undefined => exact absurd hv (by simp [JSVal.truthy])
    | null => exact absurd hv (by simp [JSVal.truthy])
    | num x => rfl
  refine ⟨hitl, fun I L hI hL => ?_, ?_, ?_⟩
  · rw [hI, JSNum.gt_fin] at hpos
    have hI0 : I ≠ 0 := ne_of_gt (by simpa using hpos)
    rw [hitl, hI, hL, JSNum.div_fin _ _ hI0, JSNum.mul_fin]
  · rw [hic]; exact hnum _ ht.2.2.1
  · rw [hcl]; exact hnum _ ht.2.2.2

theorem calculateLeadsFunnel_conversion_ratios_witness :
    ∃ res, calculateLeadsFunnel defaultInputs = some res ∧
      (res.impressionToLead =
        JSNum.mul (JSNum.div res.leads res.impressions) (JSNum.fin 100) ∧
      (∀ I L : ℚ, res.impressions = JSNum.fin I → res.leads = JSNum.fin L →
        res.impressionToLead = JSNum.fin (L / I * 100)) ∧
      JSVal.num res.impressionToClick = defaultInputs.clickRate ∧
      JSVal.num res.clickToLead = defaultInputs.conversionRate) := by
  obtain ⟨res, I, C, L, hres, hI, -, -, hId, -⟩ :=
    funnel_pos 150000 750 (23 / 10) (42 / 10) (by norm_num) (by norm_num) (by norm_num)
      (by norm_num)
  have hI' : I = 8696 := by
    rw [hId, Int.floor_eq_iff]; norm_num
  refine ⟨res, hres, calculateLeadsFunnel_conversion_ratios defaultInputs res hres ?_⟩
  rw [hI, hI', JSNum.gt_fin]
  norm_num

/-- C20: whenever a record is returned, its performance field is `evaluatePerformance`
applied to the input click rate, the input conversion rate and the cost per lead and roi of
that same record. -/
theorem calculateLeadsFunnel_performance (inputs : Inputs) (res : FunnelResult)
    (h : calculateLeadsFunnel inputs = some res) :
    ∃ clickRate conversionRate : JSNum,
      inputs.clickRate = JSVal.num clickRate ∧
      inputs.conversionRate = JSVal.num conversionRate ∧
      res.performance =
        evaluatePerformance
          { clickRate := clickRate
            conversionRate := conversionRate
            costPerLead := res.costPerLead
            roi := res.roi } := by
  obtain ⟨ht, -, -, -, -, -, -, -, -, -, -, -, -, -, -, hperf⟩ :=
    funnel_fields_of_eq inputs res h
  have hnum : ∀ v : JSVal, v.truthy = true → v = JSVal.num v.toNumber := by
    intro v hv
    cases v with
    | undefined => exact absurd hv (by simp [JSVal.truthy])
    | null => exact absurd hv (by simp [JSVal.truthy])
    | num x => rfl
  exact ⟨_, _, hnum _ ht.2.2.1, hnum _ ht.2.2.2, hperf⟩

theorem calculateLeadsFunnel_performance_witness :
    ∃ res, calculateLeadsFunnel defaultInputs = some res ∧
      ∃ clickRate conversionRate : JSNum,
        defaultInputs.clickRate = JSVal.num clickRate ∧
        defaultInputs.conversionRate = JSVal.num conversionRate ∧
        res.performance =
          evaluatePerformance
            { clickRate := clickRate
              conversionRate := conversionRate
              costPerLead := res.costPerLead
              roi := res.roi } := by
  obtain ⟨res, hres, -⟩ :=
    funnel_fields defaultInputs
      (Inputs.ofRat_allTruthy 150000 750 (23 / 10) (42 / 10) (by norm_num) (by norm_num)
        (by norm_num) (by norm_num))
  exact ⟨res, hres, calculateLeadsFunnel_performance defaultInputs res hres⟩


/-! ## Stage-wise rounding against unrounded intermediates -/

theorem unroundedFunnelCounts_ofRat (i c r v : ℚ) (hc : c ≠ 0) (hr : r ≠ 0) :
    unroundedFunnelCounts (Inputs.ofRat i c r v) =
      (JSNum.fin (⌊i / (c * (r / 100)) + 1 / 2⌋ : ℤ),
        JSNum.fin (⌊i / (c * (r / 100)) * (r / 100) + 1 / 2⌋ : ℤ),
        JSNum.fin (⌊i / (c * (r / 100)) * (r / 100) * (v / 100) + 1 / 2⌋ : ℤ)) := by
  have h100 : (100 : ℚ) ≠ 0 := by norm_num
  have hr' : r / 100 ≠ 0 := div_ne_zero hr h100
  have hcr : c * (r / 100) ≠ 0 := mul_ne_zero hc hr'
  simp only [unroundedFunnelCounts, Inputs.ofRat, JSVal.toNumber]
  rw [JSNum.div_fin _ _ h100, JSNum.div_fin _ _ h100, JSNum.mul_fin, JSNum.div_fin _ _ hcr,
    JSNum.mul_fin, JSNum.mul_fin, JSNum.round_fin, JSNum.round_fin, JSNum.round_fin]

/-- C21 as stated fails: on the reference scenario the variant with unrounded intermediate
values reports the same impressions, clicks and leads as `calculateLeadsFunnel`. -/
theorem unroundedFunnelCounts_reference_same :
    ∃ res, calculateLeadsFunnel defaultInputs = some res ∧
      unroundedFunnelCounts defaultInputs = (res.impressions, res.clicks, res.leads) := by
  obtain ⟨res, I, C, L, hres, hI, hC, hL, hId, hCd, hLd, -⟩ :=
    funnel_pos 150000 750 (23 / 10) (42 / 10) (by norm_num) (by norm_num) (by norm_num)
      (by norm_num)
  have hI' : I = 8696 := by
    rw [hId, Int.floor_eq_iff]; norm_num
  subst hI'
  have hC' : C = 200 := by
    rw [hCd, Int.floor_eq_iff]; norm_num
  subst hC'
  have hL' : L = 8 := by
    rw [hLd, Int.floor_eq_iff]; norm_num
  subst hL'
  refine ⟨res, hres, ?_⟩
  rw [defaultInputs_eq, unroundedFunnelCounts_ofRat _ _ _ _ (by norm_num) (by norm_num), hI, hC,
    hL]
  have h1 : (⌊(150000 : ℚ) / (750 * (23 / 10 / 100)) + 1 / 2⌋ : ℤ) = 8696 := by
    rw [Int.floor_eq_iff]; norm_num
  have h2 : (⌊(150000 : ℚ) / (750 * (23 / 10 / 100)) * (23 / 10 / 100) + 1 / 2⌋ : ℤ) = 200 := by
    rw [Int.floor_eq_iff]; norm_num
  have h3 : (⌊(150000 : ℚ) / (750 * (23 / 10 / 100)) * (23 / 10 / 100) * (42 / 10 / 100)
      + 1 / 2⌋ : ℤ) = 8 := by
    rw [Int.floor_eq_iff]; norm_num
  rw [h1, h2, h3]

/-- C21 amended: on the reference scenario the variant with unrounded intermediate values
reports the same counts (8696, 200, 8) as `calculateLeadsFunnel`; the two differ on other
inputs: on investment 1000, cost per click 3, click rate 50 and conversion rate 50 the code
returns 334 clicks and the variant reports 333. -/
theorem unroundedFunnelCounts_differs_elsewhere :
    (∃ res, calculateLeadsFunnel defaultInputs = some res ∧
      res.impressions = JSNum.fin 8696 ∧ res.clicks = JSNum.fin 200 ∧
      res.leads = JSNum.fin 8 ∧
      unroundedFunnelCounts defaultInputs = (JSNum.fin 8696, JSNum.fin 200, JSNum.fin 8)) ∧
    (∃ res, calculateLeadsFunnel (Inputs.ofRat 1000 3 50 50) = some res ∧
      res.impressions = JSNum.fin 667 ∧ res.clicks = JSNum.fin 334 ∧
      res.leads = JSNum.fin 167 ∧
      unroundedFunnelCounts (Inputs.ofRat 1000 3 50 50) =
        (JSNum.fin 667, JSNum.fin 333, JSNum.fin 167)) := by
  constructor
  · obtain ⟨res, I, C, L, hres, hI, hC, hL, hId, hCd, hLd, -⟩ :=
      funnel_pos 150000 750 (23 / 10) (42 / 10) (by norm_num) (by norm_num) (by norm_num)
        (by norm_num)
    have hI' : I = 8696 := by
      rw [hId, Int.floor_eq_iff]; norm_num
    subst hI'
    have hC' : C = 200 := by
      rw [hCd, Int.floor_eq_iff]; norm_num
    subst hC'
    have hL' : L = 8 := by
      rw [hLd, Int.floor_eq_iff]; norm_num
    subst hL'
    refine ⟨res, hres, by simpa using hI, by simpa using hC, by simpa using hL, ?_⟩
    rw [defaultInputs_eq, unroundedFunnelCounts_ofRat _ _ _ _ (by norm_num) (by norm_num)]
    have h1 : (⌊(150000 : ℚ) / (750 * (23 / 10 / 100)) + 1 / 2⌋ : ℤ) = 8696 := by
      rw [Int.floor_eq_iff]; norm_num
    have h2 : (⌊(150000 : ℚ) / (750 * (23 / 10 / 100)) * (23 / 10 / 100) + 1 / 2⌋ : ℤ)
        = 200 := by
      rw [Int.floor_eq_iff]; norm_num
    have h3 : (⌊(150000 : ℚ) / (750 * (23 / 10 / 100)) * (23 / 10 / 100) * (42 / 10 / 100)
        + 1 / 2⌋ : ℤ) = 8 := by
      rw [Int.floor_eq_iff]; norm_num
    rw [h1, h2, h3]
    norm_num
  · obtain ⟨res, I, C, L, hres, hI, hC, hL, hId, hCd, hLd, -⟩ :=
      funnel_pos 1000 3 50 50 (by norm_num) (by norm_num) (by norm_num) (by norm_num)
    have hI' : I = 667 := by
      rw [hId, Int.floor_eq_iff]; norm_num
    subst hI'
    have hC' : C = 334 := by
      rw [hCd, Int.floor_eq_iff]; norm_num
    subst hC'
    have hL' : L = 167 := by
      rw [hLd, Int.floor_eq_iff]; norm_num
    subst hL'
    refine ⟨res, hres, by simpa using hI, by simpa using hC, by simpa using hL, ?_⟩
    rw [unroundedFunnelCounts_ofRat _ _ _ _ (by norm_num) (by norm_num)]
    have h1 : (⌊(1000 : ℚ) / (3 * (50 / 100)) + 1 / 2⌋ : ℤ) = 667 := by
      rw [Int.floor_eq_iff]; norm_num
    have h2 : (⌊(1000 : ℚ) / (3 * (50 / 100)) * (50 / 100) + 1 / 2⌋ : ℤ) = 333 := by
      rw [Int.floor_eq_iff]; norm_num
    have h3 : (⌊(1000 : ℚ) / (3 * (50 / 100)) * (50 / 100) * (50 / 100) + 1 / 2⌋ : ℤ)
        = 167 := by
      rw [Int.floor_eq_iff]; norm_num
    rw [h1, h2, h3]
    norm_num


/-! ## Which tips a result receives -/

/-- Membership in the tip list on present arguments: a tip is in the list exactly when it is
the tip of a rule whose condition holds. -/
theorem mem_generateMarketingTips (host : Host) (results : FunnelResult) (inputs : Inputs)
    (t : Tip) :
    t ∈ generateMarketingTips host (some results) (some inputs) ↔
      (JSNum.lt inputs.conversionRate.toNumber (JSNum.fin 3) = true ∧ t = conversionTip) ∨
      (JSNum.lt inputs.clickRate.toNumber (JSNum.fin 2) = true ∧ t = trafficTip) ∨
      (JSNum.lt results.roi (JSNum.fin 100) = true ∧ t = roiTip) ∨
      (JSNum.gt results.costPerLead (JSNum.fin 15000) = true ∧
        t = costTip host results.costPerLead) ∨
      (JSNum.lt inputs.investment.toNumber (JSNum.fin 100000) = true ∧ t = budgetTip) ∨
      (results.performance.overall = Label.excellent ∧ t = optimizationTip) ∨
      (JSNum.gt results.leads (JSNum.fin 0) = true ∧ t = marketTip) := by
  rw [generateMarketingTips_some]
  simp only [List.mem_append, mem_ite_singleton, or_assoc]

/-- The category of every tip in the list is that of a rule whose condition holds. -/
theorem category_of_mem_generateMarketingTips (host : Host) (results : FunnelResult)
    (inputs : Inputs) (t : Tip)
    (ht : t ∈ generateMarketingTips host (some results) (some inputs)) :
    (JSNum.lt inputs.conversionRate.toNumber (JSNum.fin 3) = true ∧
        t.category = Category.conversion) ∨
      (JSNum.lt inputs.clickRate.toNumber (JSNum.fin 2) = true ∧
        t.category = Category.traffic) ∨
      (JSNum.lt results.roi (JSNum.fin 100) = true ∧ t.category = Category.roi) ∨
      (JSNum.gt results.costPerLead (JSNum.fin 15000) = true ∧ t.category = Category.cost) ∨
      (JSNum.lt inputs.investment.toNumber (JSNum.fin 100000) = true ∧
        t.category = Category.budget) ∨
      (results.performance.overall = Label.excellent ∧ t.category = Category.optimization) ∨
      (JSNum.gt results.leads (JSNum.fin 0) = true ∧ t.category = Category.market) := by
  rcases (mem_generateMarketingTips host results inputs t).1 ht with
    ⟨h, rfl⟩ | ⟨h, rfl⟩ | ⟨h, rfl⟩ | ⟨h, rfl⟩ | ⟨h, rfl⟩ | ⟨h, rfl⟩ | ⟨h, rfl⟩
  · exact Or.inl ⟨h, rfl⟩
  · exact Or.inr (Or.inl ⟨h, rfl⟩)
  · exact Or.inr (Or.inr (Or.inl ⟨h, rfl⟩))
  · exact Or.inr (Or.inr (Or.inr (Or.inl ⟨h, rfl⟩)))
  · exact Or.inr (Or.inr (Or.inr (Or.inr (Or.inl ⟨h, rfl⟩))))
  · exact Or.inr (Or.inr (Or.inr (Or.inr (Or.inr (Or.inl ⟨h, rfl⟩)))))
  · exact Or.inr (Or.inr (Or.inr (Or.inr (Or.inr (Or.inr ⟨h, rfl⟩)))))

/-- C22: whenever a record is returned, the tip list for it is not empty: with leads greater
than `0` the market tip is in it; otherwise roi is `0`, below 100, and the roi tip is in
it. -/
theorem generateMarketingTips_nonempty (host : Host) (inputs : Inputs) (res : FunnelResult)
    (h : calculateLeadsFunnel inputs = some res) :
    generateMarketingTips host (some res) (some inputs) ≠ [] ∧
      (JSNum.gt res.leads (JSNum.fin 0) = true →
        marketTip ∈ generateMarketingTips host (some res) (some inputs)) ∧
      (JSNum.gt res.leads (JSNum.fin 0) = false →
        res.roi = JSNum.fin 0 ∧ JSNum.lt res.roi (JSNum.fin 100) = true ∧
          roiTip ∈ generateMarketingTips host (some res) (some inputs)) := by
  obtain ⟨-, -, -, -, -, -, -, hroi, -⟩ := funnel_fields_of_eq inputs res h
  have hmarket : JSNum.gt res.leads (JSNum.fin 0) = true →
      marketTip ∈ generateMarketingTips host (some res) (some inputs) := fun hpos =>
    (mem_generateMarketingTips host res inputs marketTip).2
      (Or.inr (Or.inr (Or.inr (Or.inr (Or.inr (Or.inr ⟨hpos, rfl⟩))))))
  have hroiTip : JSNum.gt res.leads (JSNum.fin 0) = false →
      res.roi = JSNum.fin 0 ∧ JSNum.lt res.roi (JSNum.fin 100) = true ∧
        roiTip ∈ generateMarketingTips host (some res) (some inputs) := fun hnp => by
    have h0 : res.roi = JSNum.fin 0 := by
      rw [hroi, hnp]; simp
    have hlt : JSNum.lt res.roi (JSNum.fin 100) = true := by
      rw [h0, JSNum.lt_fin]; norm_num
    exact ⟨h0, hlt, (mem_generateMarketingTips host res inputs roiTip).2
      (Or.inr (Or.inr (Or.inl ⟨hlt, rfl⟩)))⟩
  refine ⟨?_, hmarket, hroiTip⟩
  cases hg : JSNum.gt res.leads (JSNum.fin 0) with
  | true => exact List.ne_nil_of_mem (hmarket hg)
  | false => exact List.ne_nil_of_mem (hroiTip hg).2.2

theorem generateMarketingTips_nonempty_witness :
    ∃ res, calculateLeadsFunnel defaultInputs = some res ∧
      generateMarketingTips ⟨fun _ => "", fun _ => ""⟩ (some res) (some defaultInputs) ≠ [] := by
  obtain ⟨res, hres, -⟩ :=
    funnel_fields defaultInputs
      (Inputs.ofRat_allTruthy 150000 750 (23 / 10) (42 / 10) (by norm_num) (by norm_num)
        (by norm_num) (by norm_num))
  exact ⟨res, hres,
    (generateMarketingTips_nonempty ⟨fun _ => "", fun _ => ""⟩ defaultInputs res hres).1⟩


theorem cost_label_fin (clickRate conversionRate roi : JSNum) (q : ℚ) :
    (evaluatePerformance
        { clickRate := clickRate, conversionRate := conversionRate,
          costPerLead := JSNum.fin q, roi := roi }).cost =
      (if q ≤ 8000 then Label.excellent
        else if q ≤ 12000 then Label.good
        else if q ≤ 18000 then Label.acceptable
        else Label.expensive) := by
  simp only [evaluatePerformance, benchmarksCostPerLead, JSNum.le_fin, decide_eq_true_eq]

theorem roi_label_fin (clickRate conversionRate costPerLead : JSNum) (q : ℚ) :
    (evaluatePerformance
        { clickRate := clickRate, conversionRate := conversionRate,
          costPerLead := costPerLead, roi := JSNum.fin q }).roi =
      (if 200 ≤ q then Label.excellent
        else if 100 ≤ q then Label.good
        else if 50 ≤ q then Label.average
        else Label.poor) := by
  simp only [evaluatePerformance, JSNum.ge_fin, decide_eq_true_eq]

/-- The record returned on four strictly positive finite fields, with leads, cost per lead
and roi as integers: leads are not negative; with leads the cost per lead and the roi are the
rounded quotients, without leads both are `0`. -/
theorem funnel_pos_int (i c r v : ℚ) (hi : 0 < i) (hc : 0 < c) (hr : 0 < r) (hv : 0 < v) :
    ∃ (res : FunnelResult) (L K R : ℤ),
      calculateLeadsFunnel (Inputs.ofRat i c r v) = some res ∧
      res.leads = JSNum.fin L ∧ res.costPerLead = JSNum.fin K ∧ res.roi = JSNum.fin R ∧
      0 ≤ L ∧
      (0 < L → K = ⌊i / L + 1 / 2⌋ ∧ R = ⌊((L : ℚ) * 45000 - i) / i * 100 + 1 / 2⌋) ∧
      (L = 0 → K = 0 ∧ R = 0) ∧
      res.performance =
        evaluatePerformance
          { clickRate := JSNum.fin r
            conversionRate := JSNum.fin v
            costPerLead := JSNum.fin K
            roi := JSNum.fin R } := by
  obtain ⟨res, I, C, L, hres, -, -, hL, hId, hCd, hLd, hcpl, -, -, hroi, -, hperf⟩ :=
    funnel_pos i c r v hi hc hr hv
  have hI0 : 0 ≤ I := by
    rw [hId]; exact Int.floor_nonneg.2 (by positivity)
  have hI0' : (0 : ℚ) ≤ I := by exact_mod_cast hI0
  have hC0 : 0 ≤ C := by
    rw [hCd]; exact Int.floor_nonneg.2 (by positivity)
  have hC0' : (0 : ℚ) ≤ C := by exact_mod_cast hC0
  have hL0 : 0 ≤ L := by
    rw [hLd]; exact Int.floor_nonneg.2 (by positivity)
  by_cases hpos : 0 < L
  · rw [if_pos hpos] at hcpl hroi
    refine ⟨res, L, _, _, hres, hL, hcpl, hroi, hL0, fun _ => ⟨rfl, rfl⟩,
      fun h0 => absurd hpos (by omega), ?_⟩
    rw [hperf, hcpl, hroi]
  · rw [if_neg hpos] at hcpl hroi
    refine ⟨res, L, 0, 0, hres, hL, by simpa using hcpl, by simpa using hroi, hL0,
      fun h => absurd h hpos, fun _ => ⟨rfl, rfl⟩, ?_⟩
    rw [hperf, hcpl, hroi]
    simp

/-- C23: on four strictly positive fields with leads `L > 0`, cost per lead `K` and roi `R`:
if `R < 100` then `K > 18000`; so when the roi tip is in the list the cost tip is too, and the
cost rating is expensive. -/
theorem calculateLeadsFunnel_low_roi_high_cost (host : Host) (i c r v : ℚ) (hi : 0 < i)
    (hc : 0 < c) (hr : 0 < r) (hv : 0 < v) :
    ∃ (res : FunnelResult) (L K R : ℤ),
      calculateLeadsFunnel (Inputs.ofRat i c r v) = some res ∧
      res.leads = JSNum.fin L ∧ res.costPerLead = JSNum.fin K ∧ res.roi = JSNum.fin R ∧
      (0 < L → R < 100 →
        18000 < K ∧
        roiTip ∈ generateMarketingTips host (some res) (some (Inputs.ofRat i c r v)) ∧
        costTip host res.costPerLead ∈
          generateMarketingTips host (some res) (some (Inputs.ofRat i c r v)) ∧
        res.performance.cost = Label.expensive) := by
  obtain ⟨res, L, K, R, hres, hL, hK, hR, -, hdef, -, hperf⟩ := funnel_pos_int i c r v hi hc hr hv
  refine ⟨res, L, K, R, hres, hL, hK, hR, fun hpos hlow => ?_⟩
  obtain ⟨hKd, hRd⟩ := hdef hpos
  have hL0 : (0 : ℚ) < L := by exact_mod_cast hpos
  have hx : ((L : ℚ) * 45000 - i) / i * 100 + 1 / 2 < 100 := by
    have h1 : ⌊((L : ℚ) * 45000 - i) / i * 100 + 1 / 2⌋ < 100 := by rw [← hRd]; exact hlow
    have h2 := Int.floor_lt.1 h1
    exact_mod_cast h2
  have hy : ((L : ℚ) * 45000 - i) / i < 199 / 200 := by linarith
  have hz : (L : ℚ) * 45000 - i < 199 / 200 * i := (div_lt_iff₀ hi).1 hy
  have hK18 : 18000 < K := by
    have h3 : (18001 : ℤ) ≤ ⌊i / L + 1 / 2⌋ := by
      rw [Int.le_floor]
      have h4 : (36001 / 2 : ℚ) ≤ i / L := by
        rw [le_div_iff₀ hL0]
        linarith
      push_cast
      linarith
    rw [hKd]
    omega
  have hKq : (18000 : ℚ) < K := by exact_mod_cast hK18
  have hRq : (R : ℚ) < 100 := by exact_mod_cast hlow
  refine ⟨hK18, ?_, ?_, ?_⟩
  · refine (mem_generateMarketingTips host res _ roiTip).2 (Or.inr (Or.inr (Or.inl ⟨?_, rfl⟩)))
    rw [hR, JSNum.lt_fin]
    exact decide_eq_true hRq
  · refine (mem_generateMarketingTips host res _ _).2
      (Or.inr (Or.inr (Or.inr (Or.inl ⟨?_, rfl⟩))))
    rw [hK, JSNum.gt_fin]
    exact decide_eq_true (by linarith)
  · rw [hperf, cost_label_fin, if_neg (by linarith), if_neg (by linarith),
      if_neg (by linarith)]


theorem JSNum.fin_intCast_inj (a b : ℤ) (h : JSNum.fin (a : ℚ) = JSNum.fin (b : ℚ)) :
    a = b := by
  have h' : (a : ℚ) = (b : ℚ) := JSNum.fin.inj h
  exact_mod_cast h'

theorem calculateLeadsFunnel_low_roi_high_cost_witness :
    ∃ (res : FunnelResult) (L K R : ℤ),
      calculateLeadsFunnel (Inputs.ofRat 45100 451 2 1) = some res ∧
      res.leads = JSNum.fin L ∧ res.costPerLead = JSNum.fin K ∧ res.roi = JSNum.fin R ∧
      0 < L ∧ R < 100 ∧ 18000 < K ∧
      roiTip ∈ generateMarketingTips ⟨fun _ => "", fun _ => ""⟩ (some res)
        (some (Inputs.ofRat 45100 451 2 1)) ∧
      costTip ⟨fun _ => "", fun _ => ""⟩ res.costPerLead ∈
        generateMarketingTips ⟨fun _ => "", fun _ => ""⟩ (some res)
          (some (Inputs.ofRat 45100 451 2 1)) ∧
      res.performance.cost = Label.expensive := by
  obtain ⟨res, L, K, R, hres, hL, hK, hR, himp⟩ :=
    calculateLeadsFunnel_low_roi_high_cost ⟨fun _ => "", fun _ => ""⟩ 45100 451 2 1
      (by norm_num) (by norm_num) (by norm_num) (by norm_num)
  obtain ⟨res', I, C, L', hres', -, -, hL', hId, hCd, hLd, -, -, -, hroi, -⟩ :=
    funnel_pos 45100 451 2 1 (by norm_num) (by norm_num) (by norm_num) (by norm_num)
  have hrr : res' = res := Option.some.inj (hres'.symm.trans hres)
  subst hrr
  have hI' : I = 5000 := by
    rw [hId, Int.floor_eq_iff]; norm_num
  subst hI'
  have hC' : C = 100 := by
    rw [hCd, Int.floor_eq_iff]; norm_num
  subst hC'
  have hL1 : L' = 1 := by
    rw [hLd, Int.floor_eq_iff]; norm_num
  subst hL1
  have hLL : L = 1 := JSNum.fin_intCast_inj _ _ (hL.symm.trans hL')
  have h2 : (⌊(((1 : ℤ) : ℚ) * 45000 - 45100) / 45100 * 100 + 1 / 2⌋ : ℤ) = 0 := by
    rw [Int.floor_eq_iff]; norm_num
  rw [if_pos (by norm_num), h2] at hroi
  have hRR : R = 0 := JSNum.fin_intCast_inj _ _ (hR.symm.trans hroi)
  have hLpos : 0 < L := by omega
  have hRlow : R < 100 := by omega
  exact ⟨res', L, K, R, hres, hL, hK, hR, hLpos, hRlow, himp hLpos hRlow⟩

theorem label_of_overall_excellent (a b c d : Label)
    (h : calculateOverallScore [a, b, c, d] = Label.excellent) :
    2 ≤ labelScore a ∧ 2 ≤ labelScore b ∧ 2 ≤ labelScore c ∧ 2 ≤ labelScore d := by
  obtain ⟨na, ha, ha1, ha4⟩ := labelScore_nat a
  obtain ⟨nb, hb, hb1, hb4⟩ := labelScore_nat b
  obtain ⟨nc, hc, hc1, hc4⟩ := labelScore_nat c
  obtain ⟨nd, hd, hd1, hd4⟩ := labelScore_nat d
  have hS : labelScore a + labelScore b + labelScore c + labelScore d
      = ((na + nb + nc + nd : ℕ) : ℚ) := by
    rw [ha, hb, hc, hd]; push_cast; ring
  rw [calculateOverallScore_four, hS, overall_of_sum] at h
  have h14 : 14 ≤ na + nb + nc + nd := by
    by_contra hn
    rw [if_neg hn] at h
    split_ifs at h
  rw [ha, hb, hc, hd]
  refine ⟨?_, ?_, ?_, ?_⟩ <;> norm_cast <;> omega

theorem JSNum.ge_fin_mono (x : JSNum) (a b : ℚ) (hab : b ≤ a)
    (h : JSNum.ge x (JSNum.fin a) = true) : JSNum.ge x (JSNum.fin b) = true := by
  cases x with
  | fin q =>
    rw [JSNum.ge_fin] at h ⊢
    exact decide_eq_true (le_trans hab (of_decide_eq_true h))
  | nan => exact h
  | posInf => rfl
  | negInf => exact absurd h (by simp [JSNum.ge])

theorem JSNum.le_fin_mono (x : JSNum) (a b : ℚ) (hab : a ≤ b)
    (h : JSNum.le x (JSNum.fin a) = true) : JSNum.le x (JSNum.fin b) = true := by
  cases x with
  | fin q =>
    rw [JSNum.le_fin] at h ⊢
    exact decide_eq_true (le_trans (of_decide_eq_true h) hab)
  | nan => exact absurd h (by simp [JSNum.le, JSNum.ge])
  | posInf => exact absurd h (by simp [JSNum.le, JSNum.ge])
  | negInf => rfl

/-- The thresholds met when the overall rating is excellent: no rating scores 1. -/
theorem evaluatePerformance_overall_excellent (m : Metrics)
    (h : (evaluatePerformance m).overall = Label.excellent) :
    JSNum.ge m.clickRate (JSNum.fin (9 / 5)) = true ∧
      JSNum.ge m.conversionRate (JSNum.fin 3) = true ∧
      JSNum.le m.costPerLead (JSNum.fin 12000) = true ∧
      JSNum.ge m.roi (JSNum.fin 50) = true := by
  have h' : calculateOverallScore
      [(evaluatePerformance m).clickRate, (evaluatePerformance m).conversion,
        (evaluatePerformance m).cost, (evaluatePerformance m).roi] = Label.excellent := h
  obtain ⟨h1, h2, h3, h4⟩ := label_of_overall_excellent _ _ _ _ h'
  refine ⟨?_, ?_, ?_, ?_⟩
  · simp only [evaluatePerformance, benchmarksClickRate] at h1
    split_ifs at h1 with c1 c2 c3
    · exact JSNum.ge_fin_mono _ _ _ (by norm_num) c1
    · exact JSNum.ge_fin_mono _ _ _ (by norm_num) c2
    · exact c3
    · exact absurd h1 (by norm_num [labelScore])
  · simp only [evaluatePerformance, benchmarksConversionRate] at h2
    split_ifs at h2 with c1 c2 c3
    · exact JSNum.ge_fin_mono _ _ _ (by norm_num) c1
    · exact JSNum.ge_fin_mono _ _ _ (by norm_num) c2
    · exact c3
    · exact absurd h2 (by norm_num [labelScore])
  · simp only [evaluatePerformance, benchmarksCostPerLead] at h3
    split_ifs at h3 with c1 c2 c3
    · exact JSNum.le_fin_mono _ _ _ (by norm_num) c1
    · exact c2
    · exact absurd h3 (by norm_num [labelScore])
    · exact absurd h3 (by norm_num [labelScore])
  · simp only [evaluatePerformance] at h4
    split_ifs at h4 with c1 c2 c3
    · exact JSNum.ge_fin_mono _ _ _ (by norm_num) c1
    · exact JSNum.ge_fin_mono _ _ _ (by norm_num) c2
    · exact c3
    · exact absurd h4 (by norm_num [labelScore])


/-- C24: on four strictly positive fields, when the overall rating of the result is
excellent: leads `L > 0`, the conversion rate is at least 3, the cost per lead `K ≤ 12000`
and the roi `R ≥ 200`; so the tip list holds the optimization and market tips and no
conversion, cost or roi tip. -/
theorem calculateLeadsFunnel_overall_excellent (host : Host) (i c r v : ℚ) (hi : 0 < i)
    (hc : 0 < c) (hr : 0 < r) (hv : 0 < v) :
    ∃ (res : FunnelResult) (L K R : ℤ),
      calculateLeadsFunnel (Inputs.ofRat i c r v) = some res ∧
      res.leads = JSNum.fin L ∧ res.costPerLead = JSNum.fin K ∧ res.roi = JSNum.fin R ∧
      (res.performance.overall = Label.excellent →
        0 < L ∧ 3 ≤ v ∧ K ≤ 12000 ∧ 200 ≤ R ∧
        optimizationTip ∈
          generateMarketingTips host (some res) (some (Inputs.ofRat i c r v)) ∧
        marketTip ∈ generateMarketingTips host (some res) (some (Inputs.ofRat i c r v)) ∧
        ∀ t ∈ generateMarketingTips host (some res) (some (Inputs.ofRat i c r v)),
          t.category ≠ Category.conversion ∧ t.category ≠ Category.cost ∧
            t.category ≠ Category.roi) := by
  obtain ⟨res, L, K, R, hres, hL, hK, hR, hL0, hdef, hzero, hperf⟩ :=
    funnel_pos_int i c r v hi hc hr hv
  refine ⟨res, L, K, R, hres, hL, hK, hR, fun hex => ?_⟩
  have hex' := hex
  rw [hperf] at hex'
  obtain ⟨-, hconv, hcost, hroi⟩ := evaluatePerformance_overall_excellent _ hex'
  have hv3 : (3 : ℚ) ≤ v := by
    rw [JSNum.ge_fin] at hconv; exact of_decide_eq_true hconv
  have hKq : (K : ℚ) ≤ 12000 := by
    rw [JSNum.le_fin] at hcost; exact of_decide_eq_true hcost
  have hK12 : K ≤ 12000 := by exact_mod_cast hKq
  have hRq : (50 : ℚ) ≤ R := by
    rw [JSNum.ge_fin] at hroi; exact of_decide_eq_true hroi
  have hR50 : 50 ≤ R := by exact_mod_cast hRq
  have hpos : 0 < L := by
    rcases lt_or_eq_of_le hL0 with h | h
    · exact h
    · have h0 := (hzero h.symm).2
      omega
  have hLq : (0 : ℚ) < L := by exact_mod_cast hpos
  obtain ⟨hKd, hRd⟩ := hdef hpos
  have hiL : i < 24001 / 2 * L := by
    have h1 : ⌊i / L + 1 / 2⌋ < 12001 := by rw [← hKd]; omega
    have h2 := Int.floor_lt.1 h1
    have h3 : i / L < 24001 / 2 := by
      push_cast at h2
      linarith
    exact (div_lt_iff₀ hLq).1 h3
  have hR200 : 200 ≤ R := by
    rw [hRd, Int.le_floor]
    have h4 : (399 / 200 : ℚ) ≤ ((L : ℚ) * 45000 - i) / i := by
      rw [le_div_iff₀ hi]
      linarith
    push_cast
    linarith
  have hR200q : (200 : ℚ) ≤ R := by exact_mod_cast hR200
  refine ⟨hpos, hv3, hK12, hR200, ?_, ?_, fun t ht => ?_⟩
  · exact (mem_generateMarketingTips host res _ _).2
      (Or.inr (Or.inr (Or.inr (Or.inr (Or.inr (Or.inl ⟨hex, rfl⟩))))))
  · refine (mem_generateMarketingTips host res _ _).2
      (Or.inr (Or.inr (Or.inr (Or.inr (Or.inr (Or.inr ⟨?_, rfl⟩))))))
    rw [hL, JSNum.gt_fin]
    exact decide_eq_true hLq
  · have hnconv : ¬ JSNum.lt (Inputs.ofRat i c r v).conversionRate.toNumber (JSNum.fin 3)
        = true := by
      simp only [Inputs.ofRat, JSVal.toNumber, JSNum.lt_fin, decide_eq_true_eq, not_lt]
      exact hv3
    have hnroi : ¬ JSNum.lt res.roi (JSNum.fin 100) = true := by
      rw [hR, JSNum.lt_fin, decide_eq_true_eq, not_lt]
      linarith
    have hncost : ¬ JSNum.gt res.costPerLead (JSNum.fin 15000) = true := by
      rw [hK, JSNum.gt_fin, decide_eq_true_eq, not_lt]
      linarith
    rcases category_of_mem_generateMarketingTips host res _ t ht with
      ⟨h, -⟩ | ⟨-, hk⟩ | ⟨h, -⟩ | ⟨h, -⟩ | ⟨-, hk⟩ | ⟨-, hk⟩ | ⟨-, hk⟩
    · exact absurd h hnconv
    · simp [hk]
    · exact absurd h hnroi
    · exact absurd h hncost
    · simp [hk]
    · simp [hk]
    · simp [hk]

theorem calculateLeadsFunnel_overall_excellent_witness :
    ∃ (res : FunnelResult) (L K R : ℤ),
      calculateLeadsFunnel (Inputs.ofRat 100000 200 5 10) = some res ∧
      res.leads = JSNum.fin L ∧ res.costPerLead = JSNum.fin K ∧ res.roi = JSNum.fin R ∧
      res.performance.overall = Label.excellent ∧
      0 < L ∧ (3 : ℚ) ≤ 10 ∧ K ≤ 12000 ∧ 200 ≤ R ∧
      optimizationTip ∈ generateMarketingTips ⟨fun _ => "", fun _ => ""⟩ (some res)
        (some (Inputs.ofRat 100000 200 5 10)) ∧
      marketTip ∈ generateMarketingTips ⟨fun _ => "", fun _ => ""⟩ (some res)
        (some (Inputs.ofRat 100000 200 5 10)) ∧
      ∀ t ∈ generateMarketingTips ⟨fun _ => "", fun _ => ""⟩ (some res)
          (some (Inputs.ofRat 100000 200 5 10)),
        t.category ≠ Category.conversion ∧ t.category ≠ Category.cost ∧
          t.category ≠ Category.roi := by
  obtain ⟨res, L, K, R, hres, hL, hK, hR, himp⟩ :=
    calculateLeadsFunnel_overall_excellent ⟨fun _ => "", fun _ => ""⟩ 100000 200 5 10
      (by norm_num) (by norm_num) (by norm_num) (by norm_num)
  obtain ⟨res', I, C, L', hres', -, -, hL', hId, hCd, hLd, hcpl, -, -, hroi, -, hperf⟩ :=
    funnel_pos 100000 200 5 10 (by norm_num) (by norm_num) (by norm_num) (by norm_num)
  have hrr : res' = res := Option.some.inj (hres'.symm.trans hres)
  subst hrr
  have hI' : I = 10000 := by
    rw [hId, Int.floor_eq_iff]; norm_num
  subst hI'
  have hC' : C = 500 := by
    rw [hCd, Int.floor_eq_iff]; norm_num
  subst hC'
  have hL1 : L' = 50 := by
    rw [hLd, Int.floor_eq_iff]; norm_num
  subst hL1
  have h1 : (⌊(100000 : ℚ) / ((50 : ℤ) : ℚ) + 1 / 2⌋ : ℤ) = 2000 := by
    rw [Int.floor_eq_iff]; norm_num
  have h2 : (⌊(((50 : ℤ) : ℚ) * 45000 - 100000) / 100000 * 100 + 1 / 2⌋ : ℤ) = 2150 := by
    rw [Int.floor_eq_iff]; norm_num
  rw [if_pos (by norm_num), h1] at hcpl
  rw [if_pos (by norm_num), h2] at hroi
  have hex : res'.performance.overall = Label.excellent := by
    rw [hperf, hcpl, hroi]
    show calculateOverallScore _ = Label.excellent
    rw [calculateOverallScore_four]
    simp only [evaluatePerformance, benchmarksClickRate, benchmarksConversionRate,
      benchmarksCostPerLead, JSNum.ge_fin, JSNum.le_fin]
    norm_num [labelScore]
  exact ⟨res', L, K, R, hres, hL, hK, hR, hex, himp hex⟩

/-- C27: on four strictly positive fields, when the result has no leads: the cost per lead is
`0`, so the cost rating is excellent while the roi rating is poor, and the tip list holds no
cost tip. -/
theorem calculateLeadsFunnel_no_leads_rating (host : Host) (i c r v : ℚ) (hi : 0 < i)
    (hc : 0 < c) (hr : 0 < r) (hv : 0 < v) :
    ∃ (res : FunnelResult) (L : ℤ),
      calculateLeadsFunnel (Inputs.ofRat i c r v) = some res ∧
      res.leads = JSNum.fin L ∧
      (L = 0 →
        res.costPerLead = JSNum.fin 0 ∧ res.roi = JSNum.fin 0 ∧
        res.performance.cost = Label.excellent ∧ res.performance.roi = Label.poor ∧
        ∀ t ∈ generateMarketingTips host (some res) (some (Inputs.ofRat i c r v)),
          t.category ≠ Category.cost) := by
  obtain ⟨res, L, K, R, hres, hL, hK, hR, -, -, hzero, hperf⟩ :=
    funnel_pos_int i c r v hi hc hr hv
  refine ⟨res, L, hres, hL, fun h0 => ?_⟩
  obtain ⟨hK0, hR0⟩ := hzero h0
  subst hK0
  subst hR0
  have hK' : res.costPerLead = JSNum.fin 0 := by simpa using hK
  have hR' : res.roi = JSNum.fin 0 := by simpa using hR
  refine ⟨hK', hR', ?_, ?_, fun t ht => ?_⟩
  · rw [hperf, cost_label_fin, if_pos (by norm_num)]
  · rw [hperf, roi_label_fin, if_neg (by norm_num), if_neg (by norm_num),
      if_neg (by norm_num)]
  · have hncost : ¬ JSNum.gt res.costPerLead (JSNum.fin 15000) = true := by
      rw [hK', JSNum.gt_fin, decide_eq_true_eq, not_lt]
      norm_num
    rcases category_of_mem_generateMarketingTips host res _ t ht with
      ⟨-, hk⟩ | ⟨-, hk⟩ | ⟨-, hk⟩ | ⟨h, -⟩ | ⟨-, hk⟩ | ⟨-, hk⟩ | ⟨-, hk⟩
    · simp [hk]
    · simp [hk]
    · simp [hk]
    · exact absurd h hncost
    · simp [hk]
    · simp [hk]
    · simp [hk]

theorem calculateLeadsFunnel_no_leads_rating_witness :
    ∃ (res : FunnelResult) (L : ℤ),
      calculateLeadsFunnel (Inputs.ofRat 1 1000 100 1) = some res ∧
      res.leads = JSNum.fin L ∧ L = 0 ∧
      res.costPerLead = JSNum.fin 0 ∧ res.roi = JSNum.fin 0 ∧
      res.performance.cost = Label.excellent ∧ res.performance.roi = Label.poor ∧
      ∀ t ∈ generateMarketingTips ⟨fun _ => "", fun _ => ""⟩ (some res)
          (some (Inputs.ofRat 1 1000 100 1)),
        t.category ≠ Category.cost := by
  obtain ⟨res, L, hres, hL, himp⟩ :=
    calculateLeadsFunnel_no_leads_rating ⟨fun _ => "", fun _ => ""⟩ 1 1000 100 1
      (by norm_num) (by norm_num) (by norm_num) (by norm_num)
  obtain ⟨res', I, C, L', hres', -, -, hL', hId, hCd, hLd, -⟩ :=
    funnel_pos 1 1000 100 1 (by norm_num) (by norm_num) (by norm_num) (by norm_num)
  have hrr : res' = res := Option.some.inj (hres'.symm.trans hres)
  subst hrr
  have hI' : I = 0 := by
    rw [hId, Int.floor_eq_iff]; norm_num
  subst hI'
  have hC' : C = 0 := by
    rw [hCd, Int.floor_eq_iff]; norm_num
  subst hC'
  have hL1 : L' = 0 := by
    rw [hLd, Int.floor_eq_iff]; norm_num
  subst hL1
  have hLL : L = 0 := JSNum.fin_intCast_inj _ _ (hL.symm.trans hL')
  exact ⟨res', L, hres, hL, hLL, himp hLL⟩


/-! ## Bounds on clicks and roi -/

/-- C28: rates above 100 are not rejected: on investment 1000, cost per click 1, click rate
200 and conversion rate 1, four strictly positive fields, a record is returned with 500
impressions and 1000 clicks, more clicks than impressions. -/
theorem calculateLeadsFunnel_rate_above_100 :
    (Inputs.ofRat 1000 1 200 1).allPositive ∧
      JSNum.gt (Inputs.ofRat 1000 1 200 1).clickRate.toNumber (JSNum.fin 100) = true ∧
      ∃ res, calculateLeadsFunnel (Inputs.ofRat 1000 1 200 1) = some res ∧
        res.impressions = JSNum.fin 500 ∧ res.clicks = JSNum.fin 1000 ∧
        JSNum.gt res.clicks res.impressions = true := by
  obtain ⟨res, I, C, L, hres, hI, hC, -, hId, hCd, -⟩ :=
    funnel_pos 1000 1 200 1 (by norm_num) (by norm_num) (by norm_num) (by norm_num)
  have hI' : I = 500 := by
    rw [hId, Int.floor_eq_iff]; norm_num
  subst hI'
  have hC' : C = 1000 := by
    rw [hCd, Int.floor_eq_iff]; norm_num
  subst hC'
  refine ⟨?_, ?_, res, hres, by simpa using hI, by simpa using hC, ?_⟩
  · simp [Inputs.allPositive, Inputs.ofRat, JSVal.isPositive]
  · simp only [Inputs.ofRat, JSVal.toNumber, JSNum.gt_fin]
    norm_num
  · rw [hI, hC, JSNum.gt_fin]
    norm_num


/-! ## The thousands branch of the currency format -/

/-- The thousands branch: an amount from 1000 and below 1000000 is rendered from the integer
nearest to the amount divided by 1000. -/
theorem formatCurrency_thousands (host : Host) (a : ℚ) (h1 : 1000 ≤ a) (h2 : a < 1000000) :
    formatCurrency host (JSNum.fin a) =
      "₡" ++ toString (⌊a / 1000 + 1 / 2⌋ : ℤ).toNat ++ "K" := by
  have hq0 : (0 : ℚ) ≤ a / 1000 := by positivity
  have hq : |a / 1000| < 10 ^ 21 := by
    rw [abs_of_nonneg hq0, div_lt_iff₀ (by norm_num)]
    calc a < 1000000 := h2
      _ < 10 ^ 21 * 1000 := by norm_num
  have hge : JSNum.ge (JSNum.fin a) (JSNum.fin 1000000) = false := by
    rw [JSNum.ge_fin]; exact decide_eq_false (not_le.2 h2)
  have hge' : JSNum.ge (JSNum.fin a) (JSNum.fin 1000) = true := by
    rw [JSNum.ge_fin]; exact decide_eq_true h1
  simp only [formatCurrency, hge, hge', if_true, Bool.false_eq_true, if_false]
  rw [JSNum.div_fin _ _ (by norm_num), JSNum.toFixed_zero host _ hq, if_neg (not_lt.2 hq0),
    abs_of_nonneg hq0]
  simp

/-- C29: an amount from 999500 and below 1000000 is rendered as `₡1000K`, the thousands
branch rounding up to 1000; for an amount from 1000 and below 999500 the number before `K`
is an integer between 1 and 999. -/
theorem formatCurrency_thousand_K (host : Host) (a : ℚ) :
    (999500 ≤ a → a < 1000000 → formatCurrency host (JSNum.fin a) = "₡1000K") ∧
      (1000 ≤ a → a < 999500 →
        ∃ n : ℕ, 1 ≤ n ∧ n ≤ 999 ∧
          formatCurrency host (JSNum.fin a) = "₡" ++ toString n ++ "K") := by
  constructor
  · intro h1 h2
    rw [formatCurrency_thousands host a (by linarith) h2]
    have h : (⌊a / 1000 + 1 / 2⌋ : ℤ) = 1000 := by
      rw [Int.floor_eq_iff]
      constructor
      · have : (1999 / 2 : ℚ) ≤ a / 1000 := by
          rw [le_div_iff₀ (by norm_num)]; linarith
        push_cast
        linarith
      · have : a / 1000 < 1000 := by
          rw [div_lt_iff₀ (by norm_num)]; linarith
        push_cast
        linarith
    rw [h]
    decide
  · intro h1 h2
    have hlo : (1 : ℤ) ≤ ⌊a / 1000 + 1 / 2⌋ := by
      rw [Int.le_floor]
      have : (1 : ℚ) ≤ a / 1000 := by
        rw [le_div_iff₀ (by norm_num)]; linarith
      push_cast
      linarith
    have hhi : ⌊a / 1000 + 1 / 2⌋ < (1000 : ℤ) := by
      rw [Int.floor_lt]
      have : a / 1000 < 1999 / 2 := by
        rw [div_lt_iff₀ (by norm_num)]; linarith
      push_cast
      linarith
    refine ⟨(⌊a / 1000 + 1 / 2⌋ : ℤ).toNat, by omega, by omega,
      formatCurrency_thousands host a h1 (by linarith)⟩

theorem formatCurrency_thousand_K_witness :
    formatCurrency ⟨fun _ => "", fun _ => ""⟩ (JSNum.fin 999500) = "₡1000K" ∧
      ∃ n : ℕ, 1 ≤ n ∧ n ≤ 999 ∧
        formatCurrency ⟨fun _ => "", fun _ => ""⟩ (JSNum.fin 45000) =
          "₡" ++ toString n ++ "K" :=
  ⟨(formatCurrency_thousand_K ⟨fun _ => "", fun _ => ""⟩ 999500).1 (by norm_num)
      (by norm_num),
    (formatCurrency_thousand_K ⟨fun _ => "", fun _ => ""⟩ 45000).2 (by norm_num)
      (by norm_num)⟩

/-! ## The cost rating in the overall score -/

theorem JSNum.le_fin_false_of_gt (x : JSNum) (a b : ℚ) (hab : b ≤ a)
    (h : JSNum.gt x (JSNum.fin a) = true) : JSNum.le x (JSNum.fin b) = false := by
  cases x with
  | fin q =>
    rw [JSNum.gt_fin] at h
    rw [JSNum.le_fin]
    exact decide_eq_false (not_le.2 (lt_of_le_of_lt hab (of_decide_eq_true h)))
  | nan => rfl
  | posInf => rfl
  | negInf => exact absurd h (by simp [JSNum.gt])

theorem evaluatePerformance_overall_eq (m : Metrics) :
    (evaluatePerformance m).overall =
      calculateOverallScore
        [(evaluatePerformance m).clickRate, (evaluatePerformance m).conversion,
          (evaluatePerformance m).cost, (evaluatePerformance m).roi] := rfl

theorem cost_score_of_gt (clickRate conversionRate roi costPerLead : JSNum)
    (h : JSNum.gt costPerLead (JSNum.fin 12000) = true) :
    labelScore (evaluatePerformance
      { clickRate := clickRate, conversionRate := conversionRate,
        costPerLead := costPerLead, roi := roi }).cost = 1 := by
  have h8 := JSNum.le_fin_false_of_gt costPerLead 12000 8000 (by norm_num) h
  have h12 := JSNum.le_fin_false_of_gt costPerLead 12000 12000 (by norm_num) h
  simp only [evaluatePerformance, benchmarksCostPerLead, h8, h12, Bool.false_eq_true, if_false]
  split_ifs <;> rfl

/-- C30: in the overall score a cost rating of acceptable is scored 1 like expensive, only
excellent, good and average scoring more; so for every click rate, conversion rate and roi
the overall rating is the same for any two costs per lead that are both above 12000. -/
theorem evaluatePerformance_overall_cost_above_12000
    (clickRate conversionRate roi c₁ c₂ : JSNum)
    (h₁ : JSNum.gt c₁ (JSNum.fin 12000) = true) (h₂ : JSNum.gt c₂ (JSNum.fin 12000) = true) :
    (evaluatePerformance
        { clickRate := clickRate, conversionRate := conversionRate,
          costPerLead := c₁, roi := roi }).overall =
      (evaluatePerformance
        { clickRate := clickRate, conversionRate := conversionRate,
          costPerLead := c₂, roi := roi }).overall ∧
    labelScore Label.acceptable = 1 ∧ labelScore Label.expensive = 1 ∧
    (∀ a : Label, 1 < labelScore a ↔
      a = Label.excellent ∨ a = Label.good ∨ a = Label.average) := by
  refine ⟨?_, rfl, rfl, fun a => ?_⟩
  · have e₁ := cost_score_of_gt clickRate conversionRate roi c₁ h₁
    have e₂ := cost_score_of_gt clickRate conversionRate roi c₂ h₂
    rw [evaluatePerformance_overall_eq, evaluatePerformance_overall_eq,
      calculateOverallScore_four, calculateOverallScore_four, e₁, e₂]
    rfl
  · cases a <;> simp [labelScore]

theorem evaluatePerformance_overall_cost_above_12000_witness :
    (evaluatePerformance
        { clickRate := JSNum.fin 5, conversionRate := JSNum.fin 10,
          costPerLead := JSNum.fin 15000, roi := JSNum.fin 250 }).overall =
      (evaluatePerformance
        { clickRate := JSNum.fin 5, conversionRate := JSNum.fin 10,
          costPerLead := JSNum.fin 30000, roi := JSNum.fin 250 }).overall ∧
    labelScore Label.acceptable = 1 ∧ labelScore Label.expensive = 1 ∧
    (∀ a : Label, 1 < labelScore a ↔
      a = Label.excellent ∨ a = Label.good ∨ a = Label.average) :=
  evaluatePerformance_overall_cost_above_12000 (JSNum.fin 5) (JSNum.fin 10) (JSNum.fin 250)
    (JSNum.fin 15000) (JSNum.fin 30000)
    (by rw [JSNum.gt_fin]; norm_num) (by rw [JSNum.gt_fin]; norm_num)

end LeadsCalculator
